import Mathlib

set_option maxRecDepth 100000

/-!
Verification of the R9 IFC extraction core: schema validation, canonical
JSON serialization and SHA-256 content hashing, as implemented in
`scripts/IFC_extractor_5.4.py` and `scripts/ifc_r9_extractor.py`.

The Python source is shallowly embedded: records are association lists from
field names to JSON values, machine hashing (SHA-256, MD5) is implemented
bit-for-bit over lists of byte values (`Nat` below 256), and Python
exceptions are modelled by `Except`.  All definitions are executable.
-/

namespace R9

/-! ## Bytes, characters and primitive string helpers -/

/-- Word bound for 32-bit arithmetic. -/
def w32 : Nat := 4294967296

/-- UTF-8 encoding of a single character (as in Python `str.encode("utf-8")`). -/
def utf8Char (c : Char) : List Nat :=
  let n := c.toNat
  if n < 128 then [n]
  else if n < 2048 then [192 + n / 64, 128 + n % 64]
  else if n < 65536 then [224 + n / 4096, 128 + (n / 64) % 64, 128 + n % 64]
  else [240 + n / 262144, 128 + (n / 4096) % 64, 128 + (n / 64) % 64, 128 + n % 64]

/-- UTF-8 encoding of a character list. -/
def utf8 (s : List Char) : List Nat :=
  s.foldr (fun c acc => utf8Char c ++ acc) []

/-- UTF-8 encoding of a string, i.e. Python `s.encode("utf-8")`. -/
def utf8Str (s : String) : List Nat := utf8 s.data

/-! ## SHA-256 (FIPS 180-4), as called through Python `hashlib.sha256` -/

/-- SHA-256 round constants. -/
def shaK : List Nat :=
  [0x428A2F98, 0x71374491, 0xB5C0FBCF, 0xE9B5DBA5, 0x3956C25B, 0x59F111F1,
   0x923F82A4, 0xAB1C5ED5, 0xD807AA98, 0x12835B01, 0x243185BE, 0x550C7DC3,
   0x72BE5D74, 0x80DEB1FE, 0x9BDC06A7, 0xC19BF174, 0xE49B69C1, 0xEFBE4786,
   0x0FC19DC6, 0x240CA1CC, 0x2DE92C6F, 0x4A7484AA, 0x5CB0A9DC, 0x76F988DA,
   0x983E5152, 0xA831C66D, 0xB00327C8, 0xBF597FC7, 0xC6E00BF3, 0xD5A79147,
   0x06CA6351, 0x14292967, 0x27B70A85, 0x2E1B2138, 0x4D2C6DFC, 0x53380D13,
   0x650A7354, 0x766A0ABB, 0x81C2C92E, 0x92722C85, 0xA2BFE8A1, 0xA81A664B,
   0xC24B8B70, 0xC76C51A3, 0xD192E819, 0xD6990624, 0xF40E3585, 0x106AA070,
   0x19A4C116, 0x1E376C08, 0x2748774C, 0x34B0BCB5, 0x391C0CB3, 0x4ED8AA4A,
   0x5B9CCA4F, 0x682E6FF3, 0x748F82EE, 0x78A5636F, 0x84C87814, 0x8CC70208,
   0x90BEFFFA, 0xA4506CEB, 0xBEF9A3F7, 0xC67178F2]

/-- Right rotation of a 32-bit word. -/
def rotr32 (n x : Nat) : Nat := ((x >>> n) ||| (x <<< (32 - n))) % w32

/-- Message-schedule sigma-0. -/
def shaS0 (x : Nat) : Nat := (rotr32 7 x) ^^^ (rotr32 18 x) ^^^ (x >>> 3)

/-- Message-schedule sigma-1. -/
def shaS1 (x : Nat) : Nat := (rotr32 17 x) ^^^ (rotr32 19 x) ^^^ (x >>> 10)

/-- Round big-sigma-0. -/
def shaB0 (x : Nat) : Nat := (rotr32 2 x) ^^^ (rotr32 13 x) ^^^ (rotr32 22 x)

/-- Round big-sigma-1. -/
def shaB1 (x : Nat) : Nat := (rotr32 6 x) ^^^ (rotr32 11 x) ^^^ (rotr32 25 x)

/-- Parse a byte list into big-endian 32-bit words. -/
def bytesToWordsBE : List Nat → List Nat
  | a :: b :: c :: d :: rest => (a * 16777216 + b * 65536 + c * 256 + d) :: bytesToWordsBE rest
  | _ => []

/-- Big-endian 8-byte rendering of a (64-bit) length value. -/
def len8BE (n : Nat) : List Nat :=
  [(n >>> 56) % 256, (n >>> 48) % 256, (n >>> 40) % 256, (n >>> 32) % 256,
   (n >>> 24) % 256, (n >>> 16) % 256, (n >>> 8) % 256, n % 256]

/-- SHA padding: append 0x80, zeros, then the bit length as 8 big-endian bytes. -/
def shaPad (msg : List Nat) : List Nat :=
  msg ++ 128 :: List.replicate ((119 - msg.length % 64) % 64) 0 ++ len8BE (msg.length * 8)

/-- Split a byte list into 64-byte chunks (fuel-driven, fuel ≥ length suffices). -/
def chunks64 : Nat → List Nat → List (List Nat)
  | 0, _ => []
  | _, [] => []
  | fuel + 1, l => l.take 64 :: chunks64 fuel (l.drop 64)

/-- Working state of the SHA-256 compression function: eight 32-bit words. -/
structure H8 where
  a : Nat
  b : Nat
  c : Nat
  d : Nat
  e : Nat
  f : Nat
  g : Nat
  h : Nat

/-- SHA-256 initial hash value. -/
def sha256H0 : H8 :=
  ⟨0x6a09e667, 0xbb67ae85, 0x3c6ef372, 0xa54ff53a, 0x510e527f, 0x9b05688c,
   0x1f83d9ab, 0x5be0cd19⟩

/-- Extend 16 schedule words to 64. -/
def shaExtend (ws : List Nat) : List Nat :=
  (List.range 48).foldl
    (fun acc _ =>
      let n := acc.length
      acc ++ [(acc.getD (n - 16) 0 + shaS0 (acc.getD (n - 15) 0) +
               acc.getD (n - 7) 0 + shaS1 (acc.getD (n - 2) 0)) % w32])
    ws

/-- One SHA-256 round; the pair carries (schedule word, round constant). -/
def shaRound (st : H8) (wk : Nat × Nat) : H8 :=
  let ch := (st.e &&& st.f) ^^^ ((4294967295 - st.e % w32) &&& st.g)
  let t1 := (st.h + shaB1 st.e + ch + wk.2 + wk.1) % w32
  let maj := (st.a &&& st.b) ^^^ (st.a &&& st.c) ^^^ (st.b &&& st.c)
  let t2 := (shaB0 st.a + maj) % w32
  ⟨(t1 + t2) % w32, st.a, st.b, st.c, (st.d + t1) % w32, st.e, st.f, st.g⟩

/-- Compress one 64-byte block into the running state. -/
def shaCompress (st : H8) (block : List Nat) : H8 :=
  let ws := shaExtend (bytesToWordsBE block)
  let t := (ws.zip shaK).foldl shaRound st
  ⟨(st.a + t.a) % w32, (st.b + t.b) % w32, (st.c + t.c) % w32, (st.d + t.d) % w32,
   (st.e + t.e) % w32, (st.f + t.f) % w32, (st.g + t.g) % w32, (st.h + t.h) % w32⟩

/-- Big-endian 4-byte rendering of a 32-bit word. -/
def word4BE (wd : Nat) : List Nat :=
  [(wd >>> 24) % 256, (wd >>> 16) % 256, (wd >>> 8) % 256, wd % 256]

/-- SHA-256 digest of a byte list, as 32 bytes. -/
def sha256Bytes (msg : List Nat) : List Nat :=
  let p := shaPad msg
  let st := (chunks64 p.length p).foldl shaCompress sha256H0
  word4BE st.a ++ word4BE st.b ++ word4BE st.c ++ word4BE st.d ++
  word4BE st.e ++ word4BE st.f ++ word4BE st.g ++ word4BE st.h

/-- Lowercase hex digit for a value below 16. -/
def hexDigitChar (n : Nat) : Char :=
  if n < 10 then Char.ofNat (48 + n) else Char.ofNat (87 + n)

/-- Two lowercase hex characters for one byte. -/
def byteHex (b : Nat) : List Char := [hexDigitChar ((b / 16) % 16), hexDigitChar (b % 16)]

/-- Lowercase hex characters of a byte list. -/
def bytesHex (bs : List Nat) : List Char :=
  bs.foldr (fun b acc => byteHex b ++ acc) []

/-- Python `hashlib.sha256(msg).hexdigest()`: lowercase hex digest string. -/
def sha256hex (msg : List Nat) : String := ⟨bytesHex (sha256Bytes msg)⟩

/-! ## Python string primitives used by the validators -/

/-- Python string whitespace (the ASCII part: space, tab, LF, CR, VT, FF,
that is code points 32, 9, 10, 13, 11, 12).  Non-ASCII Unicode whitespace is
not modelled; no input in this development contains it. -/
def isPySpace (c : Char) : Bool :=
  c.toNat = 32 || c.toNat = 9 || c.toNat = 10 || c.toNat = 13 || c.toNat = 11 || c.toNat = 12

/-- ASCII decimal digit. -/
def isAsciiDigit (c : Char) : Bool := 48 ≤ c.toNat && c.toNat ≤ 57

/-- ASCII letter, the character class `a-zA-Z` of the source regex. -/
def isAsciiLetter (c : Char) : Bool :=
  (65 ≤ c.toNat && c.toNat ≤ 90) || (97 ≤ c.toNat && c.toNat ≤ 122)

/-- Trim whitespace on both ends of a character list. -/
def pyCleanWs (l : List Char) : List Char :=
  (l.dropWhile isPySpace).reverse.dropWhile isPySpace |>.reverse

/-- Python `str.strip()` with no arguments: trim whitespace on both ends. -/
def pyStrip (s : String) : String := ⟨pyCleanWs s.data⟩

/-- Python `str.isdigit()` restricted to ASCII digits: non-empty and all digits.
Python additionally accepts some non-ASCII digit characters (superscripts
etc.); none occur in this development. -/
def pyIsDigit (s : String) : Bool := !s.data.isEmpty && s.data.all isAsciiDigit

/-- Python `str.lower()` on the Latin-1 range: ASCII `A-Z` and accented
capitals `À-Þ` (excluding `×`) are shifted by 32; other characters kept. -/
def pyLowerChar (c : Char) : Char :=
  let n := c.toNat
  if 65 ≤ n && n ≤ 90 then Char.ofNat (n + 32)
  else if 192 ≤ n && n ≤ 222 && n ≠ 215 then Char.ofNat (n + 32)
  else c

/-- Python `str.lower()` (Latin-1 fragment, see `pyLowerChar`). -/
def pyLower (s : String) : String := ⟨s.data.map pyLowerChar⟩

/-- Python `str.replace(a, b)` for single-character patterns. -/
def pyReplaceChar (s : String) (a b : Char) : String :=
  ⟨s.data.map (fun c => if c = a then b else c)⟩

/-- Substring test (`needle in hay` for Python strings). -/
def subAt (needle hay : List Char) : Bool :=
  needle.isPrefixOf hay

/-- Substring occurrence anywhere in the list. -/
def subAnywhere : List Char → List Char → Bool
  | _, [] => false
  | needle, c :: cs => subAt needle (c :: cs) || subAnywhere needle cs

/-- Python `needle in hay` on strings. -/
def strContains (hay needle : String) : Bool :=
  needle.data.isEmpty || subAnywhere needle.data hay.data

/-- Decimal digits of a natural number (fuel-driven; fuel > 0 suffices for 0). -/
def natDecAux : Nat → Nat → List Char
  | 0, _ => []
  | fuel + 1, n =>
    if n < 10 then [Char.ofNat (48 + n)]
    else natDecAux fuel (n / 10) ++ [Char.ofNat (48 + n % 10)]

/-- Decimal rendering of a natural number (Python `str` on a non-negative int). -/
def natDec (n : Nat) : String := ⟨natDecAux (n + 1) n⟩

/-- Decimal rendering of an integer (Python `str` on an int). -/
def intDec : Int → String
  | .ofNat n => natDec n
  | .negSucc n => "-" ++ natDec (n + 1)

/-- Numeric value of a list of ASCII digits. -/
def digitsVal (l : List Char) : Nat :=
  l.foldl (fun acc c => acc * 10 + (c.toNat - 48)) 0

/-- Python `int(s)`: optional surrounding whitespace, optional sign, ASCII
digits.  (Underscore digit separators and non-ASCII digits are accepted by
Python but not modelled; no input here uses them.) -/
def pyInt (s : String) : Option Int :=
  match pyCleanWs s.data with
  | [] => none
  | c :: ds =>
    if c = '-' then
      (if !ds.isEmpty && ds.all isAsciiDigit then some (-(digitsVal ds : Int)) else none)
    else if c = '+' then
      (if !ds.isEmpty && ds.all isAsciiDigit then some (digitsVal ds) else none)
    else if (c :: ds).all isAsciiDigit then some (digitsVal (c :: ds)) else none

/-- Acceptance of Python `float(s)` for plain decimal literals: optional
whitespace and sign, then digits with an optional dot (`12`, `12.23`, `.5`,
`5.`).  Scientific notation and inf/nan are accepted by Python but not
modelled; no input in this development uses them. -/
def pyFloatOk (s : String) : Bool :=
  let t := pyCleanWs s.data
  let t := match t with
           | '-' :: r => r
           | '+' :: r => r
           | r => r
  let ip := t.takeWhile isAsciiDigit
  match t.drop ip.length with
  | [] => !ip.isEmpty
  | '.' :: fp => (!ip.isEmpty || !fp.isEmpty) && fp.all isAsciiDigit
  | _ => false

/-- Rendering of `float(lit)` back to text (Python `str`/`repr`, as used by
f-strings and `json.dumps`).  Modelled for plain decimal literals, where the
shortest-repr rule yields the normalized decimal itself; other forms are
returned unchanged and are never used here. -/
def pyFloatRepr (lit : String) : String :=
  if !pyFloatOk lit then lit
  else
    let t := pyCleanWs lit.data
    let (sign, t) := match t with
                     | '-' :: r => (['-'], r)
                     | '+' :: r => (([] : List Char), r)
                     | r => ([], r)
    let ip := t.takeWhile isAsciiDigit
    let fp := match t.drop ip.length with
              | '.' :: r => r
              | _ => []
    let ip := (ip.dropWhile (· = '0'))
    let ip := if ip.isEmpty then ['0'] else ip
    let fp := (fp.reverse.dropWhile (· = '0')).reverse
    let fp := if fp.isEmpty then ['0'] else fp
    ⟨sign ++ ip ++ '.' :: fp⟩

/-! ## JSON values and Python `json.dumps` -/

/-- A JSON-serializable Python value as stored in the records of this
pipeline: a string, an int, or a float carried by its decimal literal. -/
inductive JVal where
  | s (v : String)
  | i (n : Int)
  | f (lit : String)
deriving DecidableEq, Repr

/-- Python `str()` of a stored value, as interpolated into f-strings. -/
def jstr : JVal → String
  | .s v => v
  | .i n => intDec n
  | .f lit => pyFloatRepr lit

/-- JSON string escaping with `ensure_ascii=False`: only the quote, the
backslash and control characters are escaped; non-ASCII characters pass
through. -/
def jsonEscapeChar (c : Char) : List Char :=
  if c = '"' then ['\\', '"']
  else if c = '\\' then ['\\', '\\']
  else if c = '\n' then ['\\', 'n']
  else if c = '\r' then ['\\', 'r']
  else if c = '\t' then ['\\', 't']
  else if c.toNat = 8 then ['\\', 'b']
  else if c.toNat = 12 then ['\\', 'f']
  else if c.toNat < 32 then ['\\', 'u', '0', '0', hexDigitChar (c.toNat / 16), hexDigitChar (c.toNat % 16)]
  else [c]

/-- JSON rendering of one value (`ensure_ascii=False`). -/
def renderJVal : JVal → List Char
  | .s v => '"' :: (v.data.foldr (fun c acc => jsonEscapeChar c ++ acc) []) ++ ['"']
  | .i n => (intDec n).data
  | .f lit => (pyFloatRepr lit).data

/-- A record: a Python dict as an insertion-ordered association list with
pairwise distinct keys. -/
abbrev Rec := List (String × JVal)

/-- Key order used by `json.dumps(sort_keys=True)` (code-point lexicographic,
as in Python). -/
def keyLe (p q : String × JVal) : Prop := p.1 ≤ q.1

/-- Boolean code-point-lexicographic comparison of character lists.  It
decides the string order by direct evaluation (the built-in decision
procedure works on byte iterators and does not reduce). -/
def charListLt : List Char → List Char → Bool
  | [], [] => false
  | [], _ :: _ => true
  | _ :: _, [] => false
  | a :: as, b :: bs => if a < b then true else if b < a then false else charListLt as bs

instance : DecidableRel keyLe := fun p q =>
  decidable_of_iff (charListLt q.1.data p.1.data = false) (by
    show charListLt q.1.data p.1.data = false ↔ p.1 ≤ q.1
    have hiff : ∀ (l m : List Char), charListLt l m = true ↔ List.Lex (· < ·) l m := by
      intro l
      induction l with
      | nil =>
        intro m
        cases m with
        | nil =>
          simp only [charListLt, Bool.false_eq_true, false_iff]
          intro h
          cases h
        | cons b bs => simp only [charListLt, true_iff]; exact List.Lex.nil
      | cons a as ih =>
        intro m
        cases m with
        | nil =>
          simp only [charListLt, Bool.false_eq_true, false_iff]
          intro h
          cases h
        | cons b bs =>
          simp only [charListLt]
          by_cases hab : a < b
          · simp only [hab, if_pos, true_iff]
            exact List.Lex.rel hab
          · by_cases hba : b < a
            · simp only [hab, hba, if_neg, if_pos, not_false_iff, Bool.false_eq_true, false_iff]
              intro h
              cases h with
              | cons h => exact absurd hba (lt_irrefl a)
              | rel h => exact hab h
            · have heq : a = b := le_antisymm (le_of_not_lt hba) (le_of_not_lt hab)
              subst heq
              simp only [hab, hba, if_neg, not_false_iff, ih bs]
              constructor
              · intro h
                exact List.Lex.cons h
              · intro h
                cases h with
                | cons h => exact h
                | rel h => exact absurd h hab
    have h1 : (q.1 < p.1) ↔ List.Lex (· < ·) q.1.data p.1.data := String.lt_iff_toList_lt
    constructor
    · intro h
      exact not_lt.mp (fun hlt => by rw [(hiff q.1.data p.1.data).mpr (h1.mp hlt)] at h; cases h)
    · intro hle
      cases hc : charListLt q.1.data p.1.data with
      | false => rfl
      | true => exact absurd (h1.mpr ((hiff q.1.data p.1.data).mp hc)) (not_lt.mpr hle))

/-- Sort record entries by key (stable, like Python `sorted`). -/
def sortPairs (l : Rec) : Rec := l.insertionSort keyLe

/-- Join character chunks with a separator. -/
def joinChars (sep : List Char) : List (List Char) → List Char
  | [] => []
  | [x] => x
  | x :: y :: ys => x ++ sep ++ joinChars sep (y :: ys)

/-- One `"key": value` item with the default `": "` key separator. -/
def itemChars (p : String × JVal) : List Char :=
  renderJVal (.s p.1) ++ ':' :: ' ' :: renderJVal p.2

/-- Characters of `json.dumps(d, sort_keys=True, ensure_ascii=False)`:
sorted keys, default separators `", "` and `": "`, no indentation. -/
def dumpsSortedChars (l : Rec) : List Char :=
  '{' :: joinChars [',', ' '] ((sortPairs l).map itemChars) ++ ['}']

/-- String form of the canonical (sorted-key) serialization. -/
def dumps_sorted (l : Rec) : String := ⟨dumpsSortedChars l⟩

/-- Characters of `json.dump(d, f, indent=2, ensure_ascii=False)` — the byte
content written to the output `.json` files (insertion order, 2-space
indentation). -/
def dumpsIndent2Chars (l : Rec) : List Char :=
  match l with
  | [] => ['{', '}']
  | _ => '{' :: '\n' :: joinChars [',', '\n'] (l.map (fun p => ' ' :: ' ' :: itemChars p)) ++ ['\n', '}']

/-- `calculer_hash_json` (IFC_extractor_5.4.py, lines 74-79): SHA-256 hex
digest of the sorted-key, non-ASCII-preserving JSON serialization. -/
def calculer_hash_json (proprietes : Rec) : String :=
  sha256hex (utf8 (dumpsSortedChars proprietes))

/-- `calculer_hash_fichier` (IFC_extractor_5.4.py, lines 81-87): SHA-256 hex
digest of raw file bytes. -/
def calculer_hash_fichier (contenu : List Nat) : String := sha256hex contenu

/-- First value stored under a key (Python dict lookup). -/
def lookupKey (l : Rec) (k : String) : Option JVal :=
  (l.find? (fun p => p.1 == k)).map (·.2)

/-- Remove a key (used to speak about a record without its digest field). -/
def eraseKeyAll (k : String) (l : Rec) : Rec := l.filter (fun p => !(p.1 == k))

/-- Python dict assignment `d[k] = v`: replace in place when the key exists,
else append preserving insertion order. -/
def pyDictSet (l : Rec) (k : String) (v : JVal) : Rec :=
  if (l.find? (fun p => p.1 == k)).isSome then
    l.map (fun p => if p.1 == k then (k, v) else p)
  else l ++ [(k, v)]

/-- The hash-attachment step of `traiter_fichier_maquette`
(IFC_extractor_5.4.py, lines 368-375): first `hash_ifc` (digest of the raw
source file) is stored, then `hash_json` is computed over the record as it
stands — including `hash_ifc`, excluding the yet-unset `hash_json`. -/
def attachHashes (contenu : List Nat) (proprietes : Rec) : Rec :=
  let hash_ifc := calculer_hash_fichier contenu
  let p1 := pyDictSet proprietes "hash_ifc" (.s hash_ifc)
  let hash_json := calculer_hash_json p1
  pyDictSet p1 "hash_json" (.s hash_json)

/-! ## Calendar dates (Python `datetime`) -/

/-- Days in a month of the proleptic Gregorian calendar used by
`datetime.datetime`. -/
def daysInMonth (y m : Int) : Int :=
  if m = 2 then (if y % 4 = 0 && (y % 100 ≠ 0 || y % 400 = 0) then 29 else 28)
  else if m = 4 || m = 6 || m = 9 || m = 11 then 30 else 31

/-- Whether `datetime.datetime(y, m, d)` succeeds: year in `MINYEAR..MAXYEAR`
(1..9999), month 1..12, day within the month. -/
def datetimeOk (y m d : Int) : Bool :=
  1 ≤ y && y ≤ 9999 && 1 ≤ m && m ≤ 12 && 1 ≤ d && d ≤ daysInMonth y m

/-- Python `str.split()` with no argument: split on whitespace runs,
discarding empty pieces (auxiliary, with accumulator). -/
def pySplitAux : List Char → List Char → List (List Char)
  | [], acc => if acc.isEmpty then [] else [acc.reverse]
  | c :: cs, acc =>
    if isPySpace c then
      (if acc.isEmpty then pySplitAux cs [] else acc.reverse :: pySplitAux cs [])
    else pySplitAux cs (c :: acc)

/-- Python `str.split()` with no argument. -/
def pySplit (s : String) : List String := (pySplitAux s.data []).map (⟨·⟩)

/-! ## The field validator of IFC_extractor_5.4.py (`valider_format`) -/

/-- `valider_format` (IFC_extractor_5.4.py, lines 89-146).  The Python
function returns a pair `(bool, value_or_message)`; the second component is
the canonical value on success and the error message on failure, modelled
here as a `JVal` (a message being a string). -/
def valider_format (valeur : Option String) (format_attendu nom_propriete : String) : Bool × JVal :=
  match valeur with
  | none => (false, .s ("La propriété \x27" ++ nom_propriete ++ "\x27 est manquante ou nulle"))
  | some valeur_str =>
    if format_attendu = "16_chiffres" then
      if !pyIsDigit valeur_str then
        (false, .s ("\x27" ++ nom_propriete ++ "\x27 doit contenir uniquement des chiffres, reçu: \x27" ++ valeur_str ++ "\x27"))
      else if valeur_str.length ≠ 16 then
        (false, .s ("\x27" ++ nom_propriete ++ "\x27 doit contenir exactement 16 chiffres, reçu: " ++ natDec valeur_str.length ++ " chiffres"))
      else (true, .s valeur_str)
    else if format_attendu = "12_chiffres" then
      if !pyIsDigit valeur_str then
        (false, .s ("\x27" ++ nom_propriete ++ "\x27 doit contenir uniquement des chiffres, reçu: \x27" ++ valeur_str ++ "\x27"))
      else if valeur_str.length ≠ 12 then
        (false, .s ("\x27" ++ nom_propriete ++ "\x27 doit contenir exactement 12 chiffres, reçu: " ++ natDec valeur_str.length ++ " chiffres"))
      else (true, .s valeur_str)
    else if format_attendu = "lettres" then
      let nom_clean : String := ⟨valeur_str.data.filter (fun c => isAsciiLetter c || isPySpace c)⟩
      if nom_clean = "" then
        (false, .s ("\x27" ++ nom_propriete ++ "\x27 doit contenir des lettres, reçu: \x27" ++ valeur_str ++ "\x27"))
      else (true, .s (pyStrip nom_clean))
    else if format_attendu = "nombre" then
      if pyFloatOk valeur_str then (true, .f valeur_str)
      else (false, .s ("\x27" ++ nom_propriete ++ "\x27 doit être un nombre, reçu: \x27" ++ valeur_str ++ "\x27"))
    else if format_attendu = "date" then
      let date_clean := pyReplaceChar (pyReplaceChar valeur_str '-' ' ') '/' ' '
      match pySplit date_clean with
      | [jour, mois, annee] =>
        match pyInt annee, pyInt mois, pyInt jour with
        | some a, some m, some j =>
          if datetimeOk a m j then (true, .s (jour ++ " " ++ mois ++ " " ++ annee))
          else (false, .s ("\x27" ++ nom_propriete ++ "\x27 date invalide, reçu: \x27" ++ valeur_str ++ "\x27"))
        | _, _, _ =>
          (false, .s ("\x27" ++ nom_propriete ++ "\x27 date invalide, reçu: \x27" ++ valeur_str ++ "\x27"))
      | _ => (false, .s ("\x27" ++ nom_propriete ++ "\x27 doit être au format JJ MM AAAA, reçu: \x27" ++ valeur_str ++ "\x27"))
    else if format_attendu = "texte" then
      if valeur_str = "" || pyStrip valeur_str = "" then
        (false, .s ("\x27" ++ nom_propriete ++ "\x27 ne peut pas être vide"))
      else (true, .s valeur_str)
    else (true, .s valeur_str)

/-! ## Record extraction of IFC_extractor_5.4.py -/

/-- The R9 schema `parametres_obligatoires` (IFC_extractor_5.4.py, lines
49-61), in source (insertion) order: field name, format kind, description. -/
def parametres_obligatoires : List (String × String × String) :=
  [("NOM", "lettres", "Nom de l\x27objet (lettres uniquement)"),
   ("ID", "16_chiffres", "ID à 16 chiffres"),
   ("ID_maquette", "12_chiffres", "ID maquette à 12 chiffres"),
   ("Longueur_m", "nombre", "Longueur en mètres"),
   ("Caracteristique_Materiau", "texte", "Caractéristique du matériau"),
   ("Materiau", "texte", "Type de matériau"),
   ("Statut usage", "texte", "Statut d\x27usage (neuf/en usage/réemployé)"),
   ("Date de fabrication", "date", "Date de fabrication (JJ MM AAAA)"),
   ("date mise en service", "date", "date mise en service (JJ MM AAAA)"),
   ("Date de réemploye", "date", "Date de réemploi (JJ MM AAAA)"),
   ("Empreinte Carbonne", "nombre", "Empreinte carbone")]

/-- An IFC element as this extractor reads it: the property bag exposed by
its property sets, each value given by its `str()` rendering (the form every
validator consumes). -/
abbrev Element := List (String × String)

/-- `extraire_propriete_specifique` (lines 148-168): first property of the
given exact name, if any. -/
def extraire_propriete_specifique (e : Element) (nom : String) : Option String :=
  (e.find? (fun p => p.1 == nom)).map (·.2)

/-- The `nom_ifc` adjustment (lines 182-199): the source if-chain maps every
schema field name to itself, so this is the identity. -/
def nom_ifc_of (nom_prop : String) : String := nom_prop

/-- Value lookup with the deterministic variant probing of lines 204-217:
applied only when the first lookup fails and the schema name contains
`"Date"` (capital D, so not for `date mise en service`). -/
def chercher_valeur (e : Element) (nom_prop : String) : Option String :=
  let nom_ifc := nom_ifc_of nom_prop
  match extraire_propriete_specifique e nom_ifc with
  | some v => some v
  | none =>
    if strContains nom_prop "Date" then
      let variantes := [nom_ifc, pyReplaceChar nom_ifc ' ' '_', pyReplaceChar nom_ifc '_' ' ',
        (if strContains nom_ifc "réemploye" then "Date de réemploye" else nom_ifc),
        (if strContains nom_ifc "réemploye" then "Date de réemploye" else nom_ifc)]
      variantes.foldl (fun acc variante =>
        match acc with
        | some v => some v
        | none => extraire_propriete_specifique e variante) none
    else none

/-- One iteration of the per-field loop of
`extraire_toutes_proprietes_element` (lines 180-240): a missing field
appends one missing-property message, an invalid field appends one
format-error message, a valid field stores its canonical value. -/
def extraction_step (e : Element) (acc : Rec × List String) (param : String × String × String) : Rec × List String :=
  let (proprietes, erreurs) := acc
  let (nom_prop, fmt, desc) := param
  match chercher_valeur e nom_prop with
  | none =>
    (proprietes, erreurs ++ ["❌ PROPRIÉTÉ MANQUANTE: \x27" ++ nom_ifc_of nom_prop ++ "\x27 (" ++ desc ++ ")"])
  | some valeur =>
    let (valide, resultat) := valider_format (some valeur) fmt nom_prop
    if !valide then (proprietes, erreurs ++ ["❌ FORMAT INVALIDE: " ++ jstr resultat])
    else (pyDictSet proprietes nom_prop resultat, erreurs)

/-- The full per-field loop over the schema, in schema order. -/
def extraction_loop (e : Element) : Rec × List String :=
  parametres_obligatoires.foldl (extraction_step e) ([], [])

/-- `extraire_toutes_proprietes_element` (lines 170-253).  After the loop,
a non-empty error list makes the source `raise ValueError(f"Extraction
échouée: {n} erreur(s)")`, modelled as `Except.error` with that message; on
success the record is returned (with an empty error list in the source). -/
def extraire_toutes_proprietes_element (e : Element) : Except String Rec :=
  let (proprietes, erreurs) := extraction_loop e
  if erreurs.isEmpty then .ok proprietes
  else .error ("Extraction échouée: " ++ natDec erreurs.length ++ " erreur(s)")

/-! ## Per-file and batch processing of IFC_extractor_5.4.py -/

/-- The metadata the operator types in `collecter_metadonnees_maquette`
(interactive `input()` calls, modelled as data attached to the file). -/
structure MetaInputs where
  nom_maquette : String
  nom_architecte : String
  coordonnees : String
  programme : String
  date_livraison : String
  date_depot : String

/-- A source IFC file as the per-file processing reads it: `parse = none`
models `ifcopenshell.open` raising on an unreadable or unparsable file;
`elements` are the elements of the static category allow-list in encounter
order; `psets` are the property sets scanned for `ID_maquette`; `bytes` is
the raw file content. -/
structure IFCFile where
  parse : Option (List Element)
  bytes : List Nat
  psets : List (List (String × String))
  meta : MetaInputs

/-- The `ID_maquette` scan of `collecter_metadonnees_maquette` (lines
286-294): per property set, the first property named `ID_maquette` whose
value is a 12-digit string; an inner `break` ends that set, later sets
overwrite. -/
def findIdMaquette (psets : List (List (String × String))) : Option String :=
  psets.foldl (fun acc pset =>
    match pset.find? (fun p => p.1 == "ID_maquette" && pyIsDigit p.2 && p.2.length == 12) with
    | some pr => some pr.2
    | none => acc) none

/-- `collecter_metadonnees_maquette` (lines 274-313): fails (raises, modelled
as `Except.error`) when no 12-digit `ID_maquette` property exists. -/
def collecter_metadonnees (f : IFCFile) : Except String Rec :=
  match findIdMaquette f.psets with
  | none => .error "ID_maquette manquant dans le fichier IFC"
  | some idm =>
    .ok [("ID_maquette", .s idm), ("nom_maquette", .s f.meta.nom_maquette),
         ("nom_architecte", .s f.meta.nom_architecte),
         ("coordonnees_geographiques", .s f.meta.coordonnees),
         ("programme", .s f.meta.programme),
         ("date livraison", .s f.meta.date_livraison),
         ("date depot", .s f.meta.date_depot)]

/-- The filename sanitizer `re.sub(r"[^\w\-]", "", ...)` (line 383): keep
word characters and hyphens.  (Non-ASCII word characters are kept by Python
too; names reaching this point are ASCII.) -/
def sanitizeFileName (s : String) : String :=
  ⟨s.data.filter (fun c => isAsciiLetter c || isAsciiDigit c || c = '_' || c = '-')⟩

/-- One iteration of the element loop of `traiter_fichier_maquette` (lines
356-401): failed extraction (the caught `ValueError`) counts one more
ignored object; successful extraction attaches the two digests, derives the
output filename from `ID` and `NOM`, and records the written JSON document. -/
def processStep (contenu : List Nat) (acc : Nat × Nat × List (String × Rec)) (e : Element) :
    Nat × Nat × List (String × Rec) :=
  let (crees, errs, outs) := acc
  match extraire_toutes_proprietes_element e with
  | .error _ => (crees, errs + 1, outs)
  | .ok proprietes =>
    let record := attachHashes contenu proprietes
    let nom_fichier := sanitizeFileName
      (jstr ((lookupKey record "ID").getD (.s "")) ++ "_" ++
       pyReplaceChar (jstr ((lookupKey record "NOM").getD (.s ""))) ' ' '_')
    (crees + 1, errs, outs ++ [(nom_fichier ++ ".json", record)])

/-- The element loop of `traiter_fichier_maquette`: fold `processStep` over
the elements in encounter order.  Returns (objets_crees, erreurs_totales,
written files). -/
def processElems (contenu : List Nat) (elements : List Element) : Nat × Nat × List (String × Rec) :=
  elements.foldl (processStep contenu) (0, 0, [])

/-- The per-file outcome dictionary (`status`/`objets_crees`/`erreurs`),
extended with the JSON documents the run wrote so that theorems can speak
about them. -/
structure FileResult where
  status : String
  message : String := ""
  objets_crees : Nat := 0
  erreurs : Nat := 0
  objets_json : List (String × Rec) := []
  maquette_json : Option Rec := none

/-- The maquette-level hash attachment (lines 410-417): same two-pass order
with keys `hash_maquette_ifc` then `hash_maquette_json`. -/
def attachHashesMaquette (contenu : List Nat) (metadonnees : Rec) : Rec :=
  let h := calculer_hash_fichier contenu
  let p1 := pyDictSet metadonnees "hash_maquette_ifc" (.s h)
  let hj := calculer_hash_json p1
  pyDictSet p1 "hash_maquette_json" (.s hj)

/-- `traiter_fichier_maquette` (lines 315-448).  Every exception raised in
the body — unreadable file, missing `ID_maquette`, or the `ValueError`
raised when zero objects were created — is caught by the enclosing
`except` and turned into an `error` result, so the function is total. -/
def traiter_fichier_maquette (f : IFCFile) : FileResult :=
  match f.parse with
  | none => { status := "error", message := "fichier IFC illisible" }
  | some elements =>
    match collecter_metadonnees f with
    | .error msg => { status := "error", message := msg }
    | .ok metadonnees =>
      if (processElems f.bytes elements).1 = 0 then
        { status := "error",
          message := "Aucun objet valide créé! " ++
            natDec (processElems f.bytes elements).2.1 ++ " erreurs rencontrées" }
      else
        { status := "success", objets_crees := (processElems f.bytes elements).1,
          erreurs := (processElems f.bytes elements).2.1,
          objets_json := (processElems f.bytes elements).2.2,
          maquette_json := some (attachHashesMaquette f.bytes metadonnees) }

/-- The running statistics of `traiter_tous_fichiers` (lines 550-556). -/
structure BatchStats where
  total : Nat
  success : Nat := 0
  errors : Nat := 0
  objets_crees : Nat := 0
  objets_ignores : Nat := 0
deriving DecidableEq, Repr

/-- One iteration of the batch loop (lines 559-567, maquette branch): the
per-file result only updates counters; it is never re-raised. -/
def batchStep (stats : BatchStats) (f : IFCFile) : BatchStats :=
  let result := traiter_fichier_maquette f
  if result.status = "success" then
    { stats with success := stats.success + 1,
                 objets_crees := stats.objets_crees + result.objets_crees,
                 objets_ignores := stats.objets_ignores + result.erreurs }
  else { stats with errors := stats.errors + 1 }

/-- `traiter_tous_fichiers` (lines 530-606, maquette processing): fold the
per-file processing over every listed file. -/
def traiter_tous_fichiers (fichiers : List IFCFile) : BatchStats :=
  fichiers.foldl batchStep { total := fichiers.length }

/-! ## MD5 (RFC 1321), used by ifc_r9_extractor.py to derive identifiers -/

/-- MD5 round constants. -/
def md5K : List Nat :=
  [0xd76aa478, 0xe8c7b756, 0x242070db, 0xc1bdceee, 0xf57c0faf, 0x4787c62a,
   0xa8304613, 0xfd469501, 0x698098d8, 0x8b44f7af, 0xffff5bb1, 0x895cd7be,
   0x6b901122, 0xfd987193, 0xa679438e, 0x49b40821, 0xf61e2562, 0xc040b340,
   0x265e5a51, 0xe9b6c7aa, 0xd62f105d, 0x02441453, 0xd8a1e681, 0xe7d3fbc8,
   0x21e1cde6, 0xc33707d6, 0xf4d50d87, 0x455a14ed, 0xa9e3e905, 0xfcefa3f8,
   0x676f02d9, 0x8d2a4c8a, 0xfffa3942, 0x8771f681, 0x6d9d6122, 0xfde5380c,
   0xa4beea44, 0x4bdecfa9, 0xf6bb4b60, 0xbebfbc70, 0x289b7ec6, 0xeaa127fa,
   0xd4ef3085, 0x04881d05, 0xd9d4d039, 0xe6db99e5, 0x1fa27cf8, 0xc4ac5665,
   0xf4292244, 0x432aff97, 0xab9423a7, 0xfc93a039, 0x655b59c3, 0x8f0ccc92,
   0xffeff47d, 0x85845dd1, 0x6fa87e4f, 0xfe2ce6e0, 0xa3014314, 0x4e0811a1,
   0xf7537e82, 0xbd3af235, 0x2ad7d2bb, 0xeb86d391]

/-- MD5 per-round left-rotation amounts. -/
def md5S : List Nat :=
  [7, 12, 17, 22, 7, 12, 17, 22, 7, 12, 17, 22, 7, 12, 17, 22,
   5, 9, 14, 20, 5, 9, 14, 20, 5, 9, 14, 20, 5, 9, 14, 20,
   4, 11, 16, 23, 4, 11, 16, 23, 4, 11, 16, 23, 4, 11, 16, 23,
   6, 10, 15, 21, 6, 10, 15, 21, 6, 10, 15, 21, 6, 10, 15, 21]

/-- Left rotation of a 32-bit word. -/
def rotl32 (n x : Nat) : Nat := ((x <<< n) ||| (x >>> (32 - n))) % w32

/-- Parse a byte list into little-endian 32-bit words. -/
def bytesToWordsLE : List Nat → List Nat
  | a :: b :: c :: d :: rest => (a + b * 256 + c * 65536 + d * 16777216) :: bytesToWordsLE rest
  | _ => []

/-- Little-endian 8-byte rendering of a (64-bit) length value. -/
def len8LE (n : Nat) : List Nat :=
  [n % 256, (n >>> 8) % 256, (n >>> 16) % 256, (n >>> 24) % 256,
   (n >>> 32) % 256, (n >>> 40) % 256, (n >>> 48) % 256, (n >>> 56) % 256]

/-- MD5 padding: append 0x80, zeros, then the bit length little-endian. -/
def md5Pad (msg : List Nat) : List Nat :=
  msg ++ 128 :: List.replicate ((119 - msg.length % 64) % 64) 0 ++ len8LE (msg.length * 8)

/-- Working state of the MD5 compression function. -/
structure M4 where
  a : Nat
  b : Nat
  c : Nat
  d : Nat

/-- MD5 initial state. -/
def md5H0 : M4 := ⟨0x67452301, 0xefcdab89, 0x98badcfe, 0x10325476⟩

/-- One MD5 round on schedule words `m`. -/
def md5Round (m : List Nat) (st : M4) (i : Nat) : M4 :=
  let fg :=
    if i < 16 then ((st.b &&& st.c) ||| ((4294967295 - st.b % w32) &&& st.d), i)
    else if i < 32 then ((st.d &&& st.b) ||| ((4294967295 - st.d % w32) &&& st.c), (5 * i + 1) % 16)
    else if i < 48 then (st.b ^^^ st.c ^^^ st.d, (3 * i + 5) % 16)
    else (st.c ^^^ (st.b ||| (4294967295 - st.d % w32)), (7 * i) % 16)
  let tmp := (st.a + fg.1 + md5K.getD i 0 + m.getD fg.2 0) % w32
  ⟨st.d, (st.b + rotl32 (md5S.getD i 0) tmp) % w32, st.b, st.c⟩

/-- Compress one 64-byte block into the running MD5 state. -/
def md5Compress (st : M4) (block : List Nat) : M4 :=
  let m := bytesToWordsLE block
  let t := (List.range 64).foldl (md5Round m) st
  ⟨(st.a + t.a) % w32, (st.b + t.b) % w32, (st.c + t.c) % w32, (st.d + t.d) % w32⟩

/-- Little-endian 4-byte rendering of a 32-bit word. -/
def word4LE (wd : Nat) : List Nat :=
  [wd % 256, (wd >>> 8) % 256, (wd >>> 16) % 256, (wd >>> 24) % 256]

/-- MD5 digest of a byte list, as 16 bytes. -/
def md5Bytes (msg : List Nat) : List Nat :=
  let p := md5Pad msg
  let st := (chunks64 p.length p).foldl md5Compress md5H0
  word4LE st.a ++ word4LE st.b ++ word4LE st.c ++ word4LE st.d

/-- Python `hashlib.md5(msg).hexdigest()`. -/
def md5hex (msg : List Nat) : String := ⟨bytesHex (md5Bytes msg)⟩

/-! ## The second extractor: ifc_r9_extractor.py -/

/-- Value of a lowercase hex digit character. -/
def hexVal (c : Char) : Nat := if isAsciiDigit c then c.toNat - 48 else c.toNat - 87

/-- Value of a hex digit string (Python `int(s, 16)` on lowercase digits). -/
def hexStrVal (l : List Char) : Nat := l.foldl (fun acc c => acc * 16 + hexVal c) 0

/-- Python `str.zfill(n)` for non-negative digit strings. -/
def zfill (wd : Nat) (s : String) : String :=
  if s.length < wd then ⟨List.replicate (wd - s.length) '0' ++ s.data⟩ else s

/-- The identifier derivation of `extraire_proprietes_objet` (lines 176-180):
`str(int(md5(global_id).hexdigest()[:15], 16))[:16].zfill(16)`. -/
def r9_object_id (global_id : String) : String :=
  let id_hash := md5hex (utf8Str global_id)
  zfill 16 ⟨(natDec (hexStrVal (id_hash.data.take 15))).data.take 16⟩

/-- The exact list of 11 required parameters (ifc_r9_extractor.py, lines
45-57). -/
def r9_parametres_obligatoires : List String :=
  ["NOM", "ID", "ID_maquette", "Longueur_m", "Caracteristique_Materiau",
   "Materiau", "Statut_usage", "Date_fabrication", "Date_mise_en_service",
   "Date_reemploi", "Empreinte_Carbone"]

/-- The allowed usage statuses (`statuts_valides`, line 152). -/
def r9_statuts_valides : List String := ["neuf", "en usage", "réemployé"]

/-- Python `repr` of a list of strings, as an f-string renders
`{statuts_valides}`. -/
def pyReprStrList (l : List String) : String :=
  "[" ++ String.intercalate ", " (l.map (fun s => "\x27" ++ s ++ "\x27")) ++ "]"

/-- `valider_format_date` (ifc_r9_extractor.py, lines 106-119): the guard
list, the strict regex `^\d{2}-\d{2}-\d{4}$`, then
`datetime.strptime(date_str, "%d-%m-%Y")`. -/
def valider_format_date (date_str : String) : Bool :=
  if date_str = "" || date_str = "Non trouvé" || date_str = "Non spécifié" then false
  else match date_str.data with
    | [d1, d2, '-', m1, m2, '-', y1, y2, y3, y4] =>
      if ([d1, d2, m1, m2, y1, y2, y3, y4].all isAsciiDigit) then
        datetimeOk (digitsVal [y1, y2, y3, y4]) (digitsVal [m1, m2]) (digitsVal [d1, d2])
      else false
    | _ => false

/-- `valider_format_parametre` (ifc_r9_extractor.py, lines 121-166). -/
def valider_format_parametre (nom_param : String) (valeur : Option String) : Bool × String :=
  match valeur with
  | none => (false, "Paramètre " ++ nom_param ++ " est vide ou non trouvé")
  | some v =>
    if v = "" || v = "Non trouvé" then
      (false, "Paramètre " ++ nom_param ++ " est vide ou non trouvé")
    else
      let valeur_str := pyStrip v
      if nom_param = "NOM" then
        if valeur_str.length < 1 then
          (false, "NOM doit être une chaîne de caractères non vide")
        else (true, "")
      else if nom_param = "ID" then
        if !pyIsDigit valeur_str || valeur_str.length ≠ 16 then
          (false, "ID doit être un entier de 16 chiffres exactement")
        else (true, "")
      else if nom_param = "ID_maquette" then
        if !pyIsDigit valeur_str || valeur_str.length ≠ 12 then
          (false, "ID_maquette doit être un entier de 12 chiffres exactement")
        else (true, "")
      else if nom_param = "Longueur_m" then
        if pyFloatOk valeur_str then (true, "")
        else (false, "Longueur_m doit être un nombre décimal (ex: 12.23)")
      else if nom_param = "Statut_usage" then
        if r9_statuts_valides.contains (pyLower valeur_str) then (true, "")
        else (false, "Statut_usage doit être l\x27un de: " ++ pyReprStrList r9_statuts_valides)
      else if nom_param = "Date_fabrication" || nom_param = "Date_mise_en_service" || nom_param = "Date_reemploi" then
        if valider_format_date valeur_str then (true, "")
        else (false, nom_param ++ " doit être au format DD-MM-YYYY (ex: 13-01-2001)")
      else if nom_param = "Empreinte_Carbone" then
        if pyFloatOk valeur_str then (true, "")
        else (false, "Empreinte_Carbone doit être un nombre (kg CO2 équivalent)")
      else (true, "")

/-- An element as `extraire_proprietes_objet` reads one: name, stable
GlobalId, numeric id, the property sets reached through `IsDefinedBy` (a
`none` value models a property without `NominalValue`), the IFC type, the
associated material properties, and whether a geometric representation is
attached. -/
structure R9Element where
  name : Option String
  globalId : String
  eid : Nat
  psets : List (List (String × Option String))
  ifcType : String
  matProps : List (String × Option String)
  hasGeometry : Bool

/-- Dimension keywords searched for the length property (line 195). -/
def dimNames : List String := ["length", "longueur", "height", "hauteur"]

/-- The length search of lines 186-199: per property set, the first property
whose lowercased name contains a dimension keyword and which carries a
value sets `longueur` (the `break` leaves that set only; later sets
overwrite); `float()` on a non-numeric value raises, propagated as
`Except.error`. -/
def computeLongueur (psets : List (List (String × Option String))) : Except String String :=
  psets.foldl (fun acc pset =>
    match acc with
    | .error e => .error e
    | .ok cur =>
      match pset.find? (fun p => dimNames.any (fun d => strContains (pyLower p.1) d) && p.2.isSome) with
      | some pr =>
        match pr.2 with
        | some v =>
          if pyFloatOk v then .ok (pyFloatRepr v)
          else .error ("could not convert string to float: \x27" ++ v ++ "\x27")
        | none => .ok cur
      | none => .ok cur) (.ok "0.0")

/-- The material-characteristic search of lines 201-215: the last property
named `Grade`, `Strength` or `Class` wins; a match without a value yields
the fallback `"S235"`. -/
def computeCaracteristique (matProps : List (String × Option String)) : String :=
  matProps.foldl (fun cur p =>
    if p.1 = "Grade" || p.1 = "Strength" || p.1 = "Class" then
      match p.2 with
      | some v => v
      | none => "S235"
    else cur) "Non spécifié"

/-- The IFC-type-to-material mapping (lines 220-227). -/
def mapping_materiaux : List (String × String) :=
  [("IfcBeam", "acier"), ("IfcColumn", "acier"), ("IfcSlab", "béton"),
   ("IfcWall", "béton"), ("IfcWindow", "verre"), ("IfcDoor", "bois")]

/-- `extraire_proprietes_objet` (ifc_r9_extractor.py, lines 168-248): the 11
parameters in source order, with the hard-coded defaults of the source
(`Statut_usage = "neuf"`, default dates, `Date_reemploi = "Non spécifié"`,
`Empreinte_Carbone = str(100.0)`). -/
def extraire_proprietes_objet (element : R9Element) : Except String (List (String × String)) :=
  let nom := match element.name with
             | some n => n
             | none => element.ifcType ++ "_" ++ natDec element.eid
  match computeLongueur element.psets with
  | .error e => .error e
  | .ok longueur =>
    .ok [("NOM", nom),
         ("ID", r9_object_id element.globalId),
         ("ID_maquette", "000000000000"),
         ("Longueur_m", longueur),
         ("Caracteristique_Materiau", computeCaracteristique element.matProps),
         ("Materiau", ((mapping_materiaux.find? (fun p => p.1 == element.ifcType)).map (·.2)).getD "mixte"),
         ("Statut_usage", "neuf"),
         ("Date_fabrication", "01-01-2020"),
         ("Date_mise_en_service", "01-06-2020"),
         ("Date_reemploi", "Non spécifié"),
         ("Empreinte_Carbone", "100.0")]

/-- The `_metadata` entry attached to an accepted object (lines 369-373). -/
structure R9Metadata where
  global_id : String
  ifc_type : String
  geometrie_disponible : Bool
deriving DecidableEq, Repr

/-- A value in an accepted r9 record: a string parameter or the `_metadata`
dictionary. -/
inductive R9Val where
  | s (v : String)
  | meta (m : R9Metadata)
deriving DecidableEq, Repr

/-- Python dict assignment on the string-valued r9 property dict. -/
def r9DictSet (l : List (String × String)) (k v : String) : List (String × String) :=
  if (l.find? (fun p => p.1 == k)).isSome then
    l.map (fun p => if p.1 == k then (k, v) else p)
  else l ++ [(k, v)]

/-- Lookup in the r9 property dict. -/
def r9Lookup (l : List (String × String)) (k : String) : Option String :=
  (l.find? (fun p => p.1 == k)).map (·.2)

/-- State threaded through the element loop of
`extraire_objets_avec_validation`: (objets_valides, erreurs_validation,
ids_extraits). -/
abbrev R9LoopState := List (List (String × R9Val)) × List String × List String

/-- One step of the per-parameter validation loop (lines 349-356): a missing
parameter or an invalid value appends exactly one message. -/
def r9_validation_step (eid : Nat) (proprietes : List (String × String))
    (errs : List String) (param : String) : List String :=
  match r9Lookup proprietes param with
  | none => errs ++ ["Paramètre manquant: " ++ param]
  | some v =>
    let (valide, message) := valider_format_parametre param (some v)
    if !valide then errs ++ ["Objet " ++ natDec eid ++ ": " ++ message]
    else errs

/-- One iteration of the element loop (ifc_r9_extractor.py, lines 339-377):
property extraction (an exception becoming one aggregated error message),
`ID_maquette` update, per-parameter validation, the duplicate-identifier
check against `ids_extraits`, and acceptance or rejection. -/
def r9_process_element (id_maquette : String) (st : R9LoopState) (element : R9Element) : R9LoopState :=
  let (valides, erreurs, ids) := st
  match extraire_proprietes_objet element with
  | .error e =>
    (valides, erreurs ++ ["Erreur lors du traitement de l\x27objet " ++ natDec element.eid ++ ": " ++ e], ids)
  | .ok props0 =>
    let proprietes := r9DictSet props0 "ID_maquette" id_maquette
    let erreurs_objet := r9_parametres_obligatoires.foldl (r9_validation_step element.eid proprietes) []
    let id_objet := (r9Lookup proprietes "ID").getD ""
    let erreurs_objet :=
      if ids.contains id_objet then erreurs_objet ++ ["ID dupliqué détecté: " ++ id_objet]
      else erreurs_objet
    let ids := ids ++ [id_objet]
    if erreurs_objet.isEmpty then
      (valides ++ [proprietes.map (fun p => (p.1, R9Val.s p.2)) ++
                   [("_metadata", R9Val.meta ⟨element.globalId, element.ifcType, element.hasGeometry⟩)]],
       erreurs, ids)
    else (valides, erreurs ++ erreurs_objet, ids)

/-- The full element loop, in encounter order. -/
def r9_loop (id_maquette : String) (elements : List R9Element) : R9LoopState :=
  elements.foldl (r9_process_element id_maquette) ([], [], [])

/-- The simulated already-on-network identifiers (lines 94-97). -/
def ids_existants_simules : List String := ["1234567891234567", "9876543210987654"]

/-- `simuler_verification_ids_reseau` (lines 88-104). -/
def simuler_verification_ids_reseau (ids_a_verifier : List String) : List String :=
  ids_a_verifier.filter (fun i => ids_existants_simules.contains i)

/-- `extraire_objets_avec_validation` (ifc_r9_extractor.py, lines 317-394):
after the loop and the simulated network check, any recorded error makes the
source `raise ValidationError(...)`, modelled as `Except.error`; otherwise
the accepted records are returned. -/
def extraire_objets_avec_validation (id_maquette : String) (elements : List R9Element) :
    Except String (List (List (String × R9Val))) :=
  let erreurs := (r9_loop id_maquette elements).2.1 ++
    (simuler_verification_ids_reseau (r9_loop id_maquette elements).2.2).map
      (fun idd => "ID déjà présent sur le réseau: " ++ idd)
  if erreurs.isEmpty then .ok (r9_loop id_maquette elements).1
  else .error ("Validation échouée: " ++ natDec erreurs.length ++ " erreurs détectées")

/-! ## Concrete inputs used by witnesses and counterexamples -/

/-- An element carrying the eleven schema properties, all valid. -/
def sampleElement : Element :=
  [("NOM", "poutre IPE"), ("ID", "1111111111111111"), ("ID_maquette", "123456789123"),
   ("Longueur_m", "12.23"), ("Caracteristique_Materiau", "S355"), ("Materiau", "acier"),
   ("Statut usage", "réemployé"), ("Date de fabrication", "13 01 2011"),
   ("date mise en service", "13 01 2012"), ("Date de réemploye", "13 01 2021"),
   ("Empreinte Carbonne", "400.0")]

/-- The same element with usage status `demoli` (outside the enumerated set). -/
def demoliElement : Element :=
  sampleElement.map (fun p => if p.1 == "Statut usage" then ("Statut usage", "demoli") else p)

/-- The same element with the `Materiau` property removed. -/
def missingElement : Element := sampleElement.filter (fun p => !(p.1 == "Materiau"))

/-- The same element with `Materiau` removed and an impossible date. -/
def doubleBadElement : Element :=
  (sampleElement.filter (fun p => !(p.1 == "Materiau"))).map
    (fun p => if p.1 == "Date de fabrication" then ("Date de fabrication", "31 02 2020") else p)

/-- Operator inputs used by the concrete files. -/
def sampleMeta : MetaInputs := ⟨"Diogène", "Renzo Piano", "46.5/6.6", "Logement", "13 01 2024", "13 01 2025"⟩

/-- A readable source file with one fully valid element. -/
def sampleFile : IFCFile :=
  { parse := some [sampleElement], bytes := [73, 70, 67],
    psets := [[("ID_maquette", "123456789123")]], meta := sampleMeta }

/-- A readable source file whose two elements are identical and thus share
identifier `1111111111111111`. -/
def dupFile : IFCFile := { sampleFile with parse := some [sampleElement, sampleElement] }

/-- An unreadable source file (`ifcopenshell.open` raises). -/
def unreadableFile : IFCFile := { sampleFile with parse := none }

/-- A readable file whose only element is invalid, so no object is created. -/
def emptyResultFile : IFCFile := { sampleFile with parse := some [missingElement] }

/-- A readable file whose only element carries usage status `demoli`. -/
def demoliFile : IFCFile := { sampleFile with parse := some [demoliElement] }

/-- Two r9 elements sharing a GlobalId (hence the same derived 16-digit ID). -/
def r9SampleElement : R9Element :=
  { name := some "poutre IPE", globalId := "2O2Fr8t4X7Zf8NOew3FLKI", eid := 101,
    psets := [], ifcType := "IfcBeam", matProps := [], hasGeometry := true }

/-- A second r9 element with the same GlobalId but a different numeric id. -/
def r9SampleElement2 : R9Element := { r9SampleElement with eid := 102 }

/-- The concrete property list `extraire_proprietes_objet` derives from
`r9SampleElement` (the identifier comes from the MD5 of the GlobalId). -/
def r9SampleProps : List (String × String) :=
  [("NOM", "poutre IPE"), ("ID", "1939480514973285"), ("ID_maquette", "000000000000"),
   ("Longueur_m", "0.0"), ("Caracteristique_Materiau", "Non spécifié"),
   ("Materiau", "acier"), ("Statut_usage", "neuf"), ("Date_fabrication", "01-01-2020"),
   ("Date_mise_en_service", "01-06-2020"), ("Date_reemploi", "Non spécifié"),
   ("Empreinte_Carbone", "100.0")]

/-! ## Derived definitions used by the theorems -/

/-- Lowercase hexadecimal character. -/
def isLowerHexChar (c : Char) : Bool := isAsciiDigit c || (97 ≤ c.toNat && c.toNat ≤ 102)

instance : IsTotal (String × JVal) keyLe := ⟨fun a b => le_total a.1 b.1⟩

instance : IsTrans (String × JVal) keyLe := ⟨fun _ _ _ h1 h2 => le_trans h1 h2⟩

/-- Strict key order, used to show the sorted form is unique. -/
def keyLt (p q : String × JVal) : Prop := p.1 < q.1

instance : IsAntisymm (String × JVal) keyLt := ⟨fun _ _ h1 h2 => absurd h2 (lt_asymm h1)⟩

/-- A schema field fails for an element: missing after probing, or malformed. -/
def failp (e : Element) (param : String × String × String) : Bool :=
  match chercher_valeur e param.1 with
  | none => true
  | some v => !(valider_format (some v) param.2.1 param.1).1

/-- The single message a failing field contributes. -/
def failMsg (e : Element) (param : String × String × String) : String :=
  match chercher_valeur e param.1 with
  | none => "❌ PROPRIÉTÉ MANQUANTE: \x27" ++ nom_ifc_of param.1 ++ "\x27 (" ++ param.2.2 ++ ")"
  | some v => "❌ FORMAT INVALIDE: " ++ jstr (valider_format (some v) param.2.1 param.1).2

/-- Whether extraction of an element succeeds (its error list is empty). -/
def extractOk (e : Element) : Bool := (extraction_loop e).2.isEmpty

/-- The JSON file an accepted element produces. -/
def outputOf (contenu : List Nat) (e : Element) : String × Rec :=
  let record := attachHashes contenu (extraction_loop e).1
  (sanitizeFileName (jstr ((lookupKey record "ID").getD (.s "")) ++ "_" ++
     pyReplaceChar (jstr ((lookupKey record "NOM").getD (.s ""))) ' ' '_') ++ ".json", record)

/-- The first JSON document written for the sample file. -/
def sampleOut : String × Rec := ((traiter_fichier_maquette sampleFile).objets_json).headD ("", [])

/-! ## General lemmas: digest shape and canonical sorting -/

theorem hexDigitChar_lower : ∀ n < 16, isLowerHexChar (hexDigitChar n) = true := by decide

theorem byteHex_lower (b : Nat) : ∀ c ∈ byteHex b, isLowerHexChar c = true := by
  intro c hc
  simp only [byteHex, List.mem_cons, List.mem_singleton, List.not_mem_nil, or_false] at hc
  rcases hc with h | h <;> subst h <;>
    exact hexDigitChar_lower _ (Nat.mod_lt _ (by omega))

theorem bytesHex_lower (bs : List Nat) : ∀ c ∈ bytesHex bs, isLowerHexChar c = true := by
  induction bs with
  | nil => intro c hc; simp [bytesHex] at hc
  | cons b bs ih =>
    intro c hc
    simp only [bytesHex, List.foldr_cons, List.mem_append] at hc
    rcases hc with h | h
    · exact byteHex_lower b c h
    · exact ih c h

theorem bytesHex_length (bs : List Nat) : (bytesHex bs).length = 2 * bs.length := by
  induction bs with
  | nil => rfl
  | cons b bs ih => simp [bytesHex, byteHex] at ih ⊢; omega

theorem sha256Bytes_length (msg : List Nat) : (sha256Bytes msg).length = 32 := by
  simp [sha256Bytes, word4BE]

theorem sha256hex_length (msg : List Nat) : (sha256hex msg).length = 64 := by
  show (bytesHex (sha256Bytes msg)).length = 64
  rw [bytesHex_length, sha256Bytes_length]

theorem sha256hex_lower (msg : List Nat) : ∀ c ∈ (sha256hex msg).data, isLowerHexChar c = true :=
  bytesHex_lower _

theorem sortPairs_perm (l : Rec) : (sortPairs l).Perm l := List.perm_insertionSort keyLe l

theorem sortPairs_sorted (l : Rec) : List.Sorted keyLe (sortPairs l) :=
  List.sorted_insertionSort keyLe l

theorem sorted_keyLt_of_nodup {l : Rec} (hs : List.Sorted keyLe l)
    (hn : (l.map Prod.fst).Nodup) : List.Sorted keyLt l := by
  have hpn : l.Pairwise (fun a b => a.1 ≠ b.1) :=
    (List.pairwise_map (l := l) (R := (· ≠ ·)) (f := Prod.fst)).mp hn
  exact (List.Pairwise.and hs hpn).imp (fun h => lt_of_le_of_ne h.1 h.2)

/-- Two records with the same key-value multiset and duplicate-free keys have
the same sorted form. -/
theorem sortPairs_eq_of_perm {l1 l2 : Rec} (hp : l1.Perm l2)
    (hn : (l1.map Prod.fst).Nodup) : sortPairs l1 = sortPairs l2 := by
  have hn2 : (l2.map Prod.fst).Nodup := ((hp.map Prod.fst).nodup_iff).mp hn
  have hn1s : ((sortPairs l1).map Prod.fst).Nodup :=
    (((sortPairs_perm l1).map Prod.fst).nodup_iff).mpr hn
  have hn2s : ((sortPairs l2).map Prod.fst).Nodup :=
    (((sortPairs_perm l2).map Prod.fst).nodup_iff).mpr hn2
  exact List.eq_of_perm_of_sorted
    ((sortPairs_perm l1).trans (hp.trans (sortPairs_perm l2).symm))
    (sorted_keyLt_of_nodup (sortPairs_sorted l1) hn1s)
    (sorted_keyLt_of_nodup (sortPairs_sorted l2) hn2s)

/-- C1: two records with identical field-to-value mappings serialize and hash
identically, and every digest is a 64-character lowercase hex string. -/
theorem claim1_canonical_hash (l1 l2 : Rec) (hp : l1.Perm l2)
    (hn : (l1.map Prod.fst).Nodup) :
    dumps_sorted l1 = dumps_sorted l2 ∧
    calculer_hash_json l1 = calculer_hash_json l2 ∧
    (calculer_hash_json l1).length = 64 ∧
    ∀ c ∈ (calculer_hash_json l1).data, isLowerHexChar c = true := by
  have hs := sortPairs_eq_of_perm hp hn
  have hd : dumpsSortedChars l1 = dumpsSortedChars l2 := by
    unfold dumpsSortedChars; rw [hs]
  refine ⟨?_, ?_, sha256hex_length _, sha256hex_lower _⟩
  · unfold dumps_sorted; rw [hd]
  · unfold calculer_hash_json; rw [hd]

/-- Witness for C1 at the spec example: the records b=1,a=2 and a=2,b=1. -/
theorem claim1_canonical_hash_w :
    dumps_sorted [("b", JVal.i 1), ("a", JVal.i 2)] = dumps_sorted [("a", JVal.i 2), ("b", JVal.i 1)] ∧
    calculer_hash_json [("b", JVal.i 1), ("a", JVal.i 2)] = calculer_hash_json [("a", JVal.i 2), ("b", JVal.i 1)] ∧
    (calculer_hash_json [("b", JVal.i 1), ("a", JVal.i 2)]).length = 64 := by
  have h := claim1_canonical_hash [("b", JVal.i 1), ("a", JVal.i 2)]
    [("a", JVal.i 2), ("b", JVal.i 1)] (by decide) (by decide)
  exact ⟨h.1, h.2.1, h.2.2.1⟩

/-! ## Characterization of the extraction loop -/

theorem extraction_foldl_errs (e : Element) :
    ∀ (params : List (String × String × String)) (acc : Rec × List String),
    (params.foldl (extraction_step e) acc).2 =
      acc.2 ++ (params.filter (failp e)).map (failMsg e) := by
  intro params
  induction params with
  | nil => intro acc; simp
  | cons p ps ih =>
    intro acc
    obtain ⟨pr, er⟩ := acc
    rw [List.foldl_cons, ih]
    cases hcv : chercher_valeur e p.1 with
    | none =>
      simp [extraction_step, failp, failMsg, hcv, List.filter_cons]
    | some v =>
      cases hval : (valider_format (some v) p.2.1 p.1).1 with
      | false => simp [extraction_step, failp, failMsg, hcv, hval, List.filter_cons]
      | true => simp [extraction_step, failp, failMsg, hcv, hval, List.filter_cons]

/-- The error list of the extraction loop: exactly one message per failing
field, in schema order — no early abort, full enumeration. -/
theorem extraction_loop_errs (e : Element) :
    (extraction_loop e).2 = (parametres_obligatoires.filter (failp e)).map (failMsg e) :=
  extraction_foldl_errs e parametres_obligatoires ([], [])

theorem pyDictSet_keys {l : Rec} {k k' : String} {v : JVal}
    (h : k' ∈ (pyDictSet l k v).map Prod.fst) : k' ∈ l.map Prod.fst ∨ k' = k := by
  unfold pyDictSet at h
  split at h
  · rw [List.map_map] at h
    obtain ⟨p, hp, hpk⟩ := List.mem_map.mp h
    by_cases hc : p.1 == k
    · right
      simp only [Function.comp_apply, hc, if_pos] at hpk
      exact hpk.symm
    · left
      simp only [Function.comp_apply, hc, if_neg, Bool.false_eq_true, not_false_iff] at hpk
      exact hpk ▸ List.mem_map_of_mem Prod.fst hp
  · rw [List.map_append, List.mem_append] at h
    rcases h with h | h
    · exact Or.inl h
    · simp at h; exact Or.inr h

theorem extraction_foldl_keys (e : Element) :
    ∀ (params : List (String × String × String)) (acc : Rec × List String) (k : String),
    k ∈ ((params.foldl (extraction_step e) acc).1.map Prod.fst) →
    k ∈ acc.1.map Prod.fst ∨ k ∈ params.map (fun p => p.1) := by
  intro params
  induction params with
  | nil => intro acc k h; simp at h ⊢; exact h
  | cons p ps ih =>
    intro acc k h
    obtain ⟨pr, er⟩ := acc
    rw [List.foldl_cons] at h
    rcases ih (extraction_step e (pr, er) p) k h with h1 | h1
    · cases hcv : chercher_valeur e p.1 with
      | none =>
        simp only [extraction_step, hcv] at h1
        exact Or.inl h1
      | some v =>
        cases hval : (valider_format (some v) p.2.1 p.1).1 with
        | false =>
          simp only [extraction_step, hcv, hval, Bool.not_false, if_pos] at h1
          exact Or.inl h1
        | true =>
          simp only [extraction_step, hcv, hval, Bool.not_true] at h1
          rcases pyDictSet_keys h1 with h2 | h2
          · exact Or.inl h2
          · right; simp [h2]
    · right; simp [h1]

/-- Keys produced by the extraction loop all belong to the schema. -/
theorem extraction_loop_keys (e : Element) (k : String)
    (h : k ∈ (extraction_loop e).1.map Prod.fst) :
    k ∈ parametres_obligatoires.map (fun p => p.1) := by
  rcases extraction_foldl_keys e parametres_obligatoires ([], []) k h with h1 | h1
  · simp at h1
  · exact h1

/-- The digest keys are not schema keys, hence fresh for every extracted
record. -/
theorem extraction_loop_no_hash_keys (e : Element) :
    "hash_ifc" ∉ (extraction_loop e).1.map Prod.fst ∧
    "hash_json" ∉ (extraction_loop e).1.map Prod.fst := by
  constructor <;> intro h <;> have := extraction_loop_keys e _ h <;> revert this <;> decide

/-! ## Characterization of the per-file element loop -/

theorem extraire_eq_ite (e : Element) :
    extraire_toutes_proprietes_element e =
      if extractOk e then .ok (extraction_loop e).1
      else .error ("Extraction échouée: " ++ natDec (extraction_loop e).2.length ++ " erreur(s)") := by
  rcases hx : extraction_loop e with ⟨pr, er⟩
  simp [extraire_toutes_proprietes_element, extractOk, hx]

theorem processElems_go (contenu : List Nat) :
    ∀ (elements : List Element) (acc : Nat × Nat × List (String × Rec)),
    elements.foldl (processStep contenu) acc =
      (acc.1 + (elements.filter extractOk).length,
       acc.2.1 + (elements.filter (fun e => !extractOk e)).length,
       acc.2.2 ++ (elements.filter extractOk).map (outputOf contenu)) := by
  intro elements
  induction elements with
  | nil => intro acc; simp
  | cons e es ih =>
    intro acc
    obtain ⟨c, r, o⟩ := acc
    rw [List.foldl_cons, ih]
    cases hok : extractOk e
    · have hstep : processStep contenu (c, r, o) e = (c, r + 1, o) := by
        simp [processStep, extraire_eq_ite, hok]
      rw [hstep]
      simp [List.filter_cons, hok]
      omega
    · have hstep : processStep contenu (c, r, o) e = (c + 1, r, o ++ [outputOf contenu e]) := by
        simp [processStep, extraire_eq_ite, hok, outputOf]
      rw [hstep]
      simp [List.filter_cons, hok]
      omega

/-- The element loop partitions the elements: accepted elements are counted
and produce their JSON output, rejected ones are only counted. -/
theorem processElems_spec (contenu : List Nat) (elements : List Element) :
    processElems contenu elements =
      ((elements.filter extractOk).length,
       (elements.filter (fun e => !extractOk e)).length,
       (elements.filter extractOk).map (outputOf contenu)) := by
  have h := processElems_go contenu elements (0, 0, [])
  simpa [processElems] using h

theorem processElems_count (contenu : List Nat) (elements : List Element) :
    (processElems contenu elements).1 = (elements.filter extractOk).length := by
  rw [processElems_spec]

theorem processElems_errcount (contenu : List Nat) (elements : List Element) :
    (processElems contenu elements).2.1 = (elements.filter (fun e => !extractOk e)).length := by
  rw [processElems_spec]

theorem processElems_outs (contenu : List Nat) (elements : List Element) :
    (processElems contenu elements).2.2 = (elements.filter extractOk).map (outputOf contenu) := by
  rw [processElems_spec]

/-! ## Structure of a record after hash attachment -/

theorem find?_none_of_key_not_mem {l : Rec} {k : String} (h : k ∉ l.map Prod.fst) :
    l.find? (fun p => p.1 == k) = none := by
  rw [List.find?_eq_none]
  intro p hp hbeq
  have : p.1 = k := by simpa using hbeq
  exact h (this ▸ List.mem_map_of_mem Prod.fst hp)

theorem pyDictSet_fresh {l : Rec} {k : String} {v : JVal} (h : k ∉ l.map Prod.fst) :
    pyDictSet l k v = l ++ [(k, v)] := by
  unfold pyDictSet
  rw [find?_none_of_key_not_mem h]
  rfl

theorem lookupKey_append_cons {l : Rec} {k : String} {v : JVal} (m : Rec)
    (h : k ∉ l.map Prod.fst) : lookupKey (l ++ (k, v) :: m) k = some v := by
  unfold lookupKey
  rw [List.find?_append, find?_none_of_key_not_mem h]
  simp

theorem eraseKeyAll_of_not_mem {l : Rec} {k : String} (h : k ∉ l.map Prod.fst) :
    eraseKeyAll k l = l := by
  unfold eraseKeyAll
  rw [List.filter_eq_self]
  intro p hp
  have hne : ¬ p.1 = k := fun he => h (he ▸ List.mem_map_of_mem Prod.fst hp)
  simpa using hne

/-- After `attachHashes`: the record is its `hash_json`-free part followed by
the `hash_json` field, whose value digests exactly that part; the part
includes `hash_ifc`, the digest of the raw source bytes. -/
theorem attachHashes_facts (contenu : List Nat) (props : Rec)
    (h1 : "hash_ifc" ∉ props.map Prod.fst) (h2 : "hash_json" ∉ props.map Prod.fst) :
    eraseKeyAll "hash_json" (attachHashes contenu props) =
      props ++ [("hash_ifc", .s (calculer_hash_fichier contenu))] ∧
    attachHashes contenu props =
      eraseKeyAll "hash_json" (attachHashes contenu props) ++
       [("hash_json", .s (calculer_hash_json (eraseKeyAll "hash_json" (attachHashes contenu props))))] ∧
    lookupKey (eraseKeyAll "hash_json" (attachHashes contenu props)) "hash_ifc" =
      some (.s (calculer_hash_fichier contenu)) ∧
    lookupKey (attachHashes contenu props) "hash_json" =
      some (.s (calculer_hash_json (eraseKeyAll "hash_json" (attachHashes contenu props)))) := by
  have hifc : "hash_json" ∉ (props ++ [("hash_ifc", JVal.s (calculer_hash_fichier contenu))]).map Prod.fst := by
    rw [List.map_append, List.mem_append]
    rintro (h | h)
    · exact h2 h
    · simp at h
  have hattach : attachHashes contenu props =
      (props ++ [("hash_ifc", JVal.s (calculer_hash_fichier contenu))]) ++
      [("hash_json", JVal.s (calculer_hash_json (props ++ [("hash_ifc", JVal.s (calculer_hash_fichier contenu))])))] := by
    show pyDictSet (pyDictSet props "hash_ifc" (JVal.s (calculer_hash_fichier contenu))) "hash_json"
        (JVal.s (calculer_hash_json (pyDictSet props "hash_ifc" (JVal.s (calculer_hash_fichier contenu))))) = _
    rw [pyDictSet_fresh h1, pyDictSet_fresh hifc]
  have herase : eraseKeyAll "hash_json" (attachHashes contenu props) =
      props ++ [("hash_ifc", JVal.s (calculer_hash_fichier contenu))] := by
    rw [hattach]
    unfold eraseKeyAll
    rw [List.filter_append, ← eraseKeyAll, eraseKeyAll_of_not_mem hifc]
    simp
  refine ⟨herase, ?_, ?_, ?_⟩
  · rw [herase, hattach]
  · rw [herase]
    exact lookupKey_append_cons [] h1
  · rw [herase, hattach]
    exact lookupKey_append_cons [] hifc

/-- Every JSON document the per-file processing writes is the record of an
accepted element with the two digests attached by `attachHashes`. -/
theorem traiter_record_shape (f : IFCFile) (path : String) (record : Rec)
    (hmem : (path, record) ∈ (traiter_fichier_maquette f).objets_json) :
    ∃ e : Element, extractOk e = true ∧ record = attachHashes f.bytes (extraction_loop e).1 := by
  unfold traiter_fichier_maquette at hmem
  split at hmem
  · simp at hmem
  · split at hmem
    · simp at hmem
    · split at hmem
      · simp at hmem
      · simp only [processElems_outs] at hmem
        obtain ⟨e, he, heq⟩ := List.mem_map.mp hmem
        refine ⟨e, List.of_mem_filter he, ?_⟩
        have := congrArg Prod.snd heq
        simpa [outputOf] using this.symm

/-- C2: every accepted record of a processed file carries `hash_ifc`, the
digest of the raw source bytes, attached before `hash_json`; `hash_json`
digests exactly the record including `hash_ifc` and excluding `hash_json`
itself. -/
theorem claim2_two_pass_hash (f : IFCFile) (path : String) (record : Rec)
    (hmem : (path, record) ∈ (traiter_fichier_maquette f).objets_json) :
    record = eraseKeyAll "hash_json" record ++
      [("hash_json", .s (calculer_hash_json (eraseKeyAll "hash_json" record)))] ∧
    lookupKey (eraseKeyAll "hash_json" record) "hash_ifc" =
      some (.s (calculer_hash_fichier f.bytes)) ∧
    lookupKey record "hash_json" =
      some (.s (calculer_hash_json (eraseKeyAll "hash_json" record))) := by
  obtain ⟨e, _, hrec⟩ := traiter_record_shape f path record hmem
  obtain ⟨hk1, hk2⟩ := extraction_loop_no_hash_keys e
  obtain ⟨he, hr, hl1, hl2⟩ := attachHashes_facts f.bytes (extraction_loop e).1 hk1 hk2
  subst hrec
  exact ⟨hr, he ▸ hl1, hl2⟩

theorem sampleOut_mem : (sampleOut.1, sampleOut.2) ∈ (traiter_fichier_maquette sampleFile).objets_json := by
  have h : (traiter_fichier_maquette sampleFile).objets_json = [sampleOut] := rfl
  rw [h]
  exact List.mem_singleton.mpr rfl

/-- Witness for C2 at the sample file. -/
theorem claim2_two_pass_hash_w :
    sampleOut.2 = eraseKeyAll "hash_json" sampleOut.2 ++
      [("hash_json", .s (calculer_hash_json (eraseKeyAll "hash_json" sampleOut.2)))] ∧
    lookupKey (eraseKeyAll "hash_json" sampleOut.2) "hash_ifc" =
      some (.s (calculer_hash_fichier sampleFile.bytes)) := by
  have h := claim2_two_pass_hash sampleFile sampleOut.1 sampleOut.2 sampleOut_mem
  exact ⟨h.1, h.2.1⟩

/-! ## Batch processing lemmas -/

theorem batchStep_success (st : BatchStats) (f : IFCFile) :
    (batchStep st f).success =
      if (traiter_fichier_maquette f).status = "success" then st.success + 1 else st.success := by
  simp only [batchStep]
  split <;> rfl

theorem batchStep_errors (st : BatchStats) (f : IFCFile) :
    (batchStep st f).errors =
      if (traiter_fichier_maquette f).status = "success" then st.errors else st.errors + 1 := by
  simp only [batchStep]
  split <;> rfl

theorem batchStep_total (st : BatchStats) (f : IFCFile) : (batchStep st f).total = st.total := by
  simp only [batchStep]
  split <;> rfl

theorem batch_go : ∀ (fichiers : List IFCFile) (st : BatchStats),
    (fichiers.foldl batchStep st).success =
      st.success + (fichiers.filter (fun f => (traiter_fichier_maquette f).status == "success")).length ∧
    (fichiers.foldl batchStep st).errors =
      st.errors + (fichiers.filter (fun f => !((traiter_fichier_maquette f).status == "success"))).length ∧
    (fichiers.foldl batchStep st).total = st.total := by
  intro fichiers
  induction fichiers with
  | nil => intro st; simp
  | cons f fs ih =>
    intro st
    rw [List.foldl_cons]
    obtain ⟨h1, h2, h3⟩ := ih (batchStep st f)
    refine ⟨?_, ?_, ?_⟩
    · rw [h1, batchStep_success, List.filter_cons]
      by_cases hs : (traiter_fichier_maquette f).status = "success" <;>
        (simp [hs]; try omega)
    · rw [h2, batchStep_errors, List.filter_cons]
      by_cases hs : (traiter_fichier_maquette f).status = "success" <;>
        (simp [hs]; try omega)
    · rw [h3, batchStep_total]

/-- C9: a loaded file with zero accepted objects yields a failed status, an
unreadable file yields a failed status, and the batch loop gives every file
exactly one outcome — later files are processed no matter how earlier files
fail (the batch statistics are additive over concatenation). -/
theorem claim9_empty_result_batch :
    (∀ (f : IFCFile) (elements : List Element), f.parse = some elements →
       (processElems f.bytes elements).1 = 0 → (traiter_fichier_maquette f).status = "error") ∧
    (∀ f : IFCFile, f.parse = none → (traiter_fichier_maquette f).status = "error") ∧
    (∀ fichiers : List IFCFile,
       (traiter_tous_fichiers fichiers).total = fichiers.length ∧
       (traiter_tous_fichiers fichiers).success + (traiter_tous_fichiers fichiers).errors = fichiers.length) ∧
    (∀ fs gs : List IFCFile,
       (traiter_tous_fichiers (fs ++ gs)).success =
         (traiter_tous_fichiers fs).success + (traiter_tous_fichiers gs).success ∧
       (traiter_tous_fichiers (fs ++ gs)).errors =
         (traiter_tous_fichiers fs).errors + (traiter_tous_fichiers gs).errors) := by
  refine ⟨?_, ?_, ?_, ?_⟩
  · intro f elements hp hz
    unfold traiter_fichier_maquette
    simp only [hp]
    split
    · rfl
    · rw [if_pos hz]
  · intro f hp
    unfold traiter_fichier_maquette
    simp only [hp]
  · intro fichiers
    obtain ⟨h1, h2, h3⟩ := batch_go fichiers { total := fichiers.length }
    have hlen := fichiers.length_eq_length_filter_add
      (fun f => (traiter_fichier_maquette f).status == "success")
    refine ⟨h3, ?_⟩
    rw [traiter_tous_fichiers, h1, h2]
    dsimp only at *
    omega
  · intro fs gs
    obtain ⟨g1, g2, _⟩ := batch_go gs (fs.foldl batchStep { total := (fs ++ gs).length })
    obtain ⟨f1, f2, _⟩ := batch_go fs { total := (fs ++ gs).length }
    obtain ⟨f1s, f2s, _⟩ := batch_go fs { total := fs.length }
    obtain ⟨g1s, g2s, _⟩ := batch_go gs { total := gs.length }
    unfold traiter_tous_fichiers
    rw [List.foldl_append]
    constructor
    · rw [g1, f1, f1s, g1s]
      dsimp only
      omega
    · rw [g2, f2, f2s, g2s]
      dsimp only
      omega

/-- Witness for C9: an empty-result file and an unreadable file both fail,
and a two-file batch records one outcome per file. -/
theorem claim9_empty_result_batch_w :
    (traiter_fichier_maquette emptyResultFile).status = "error" ∧
    (traiter_fichier_maquette unreadableFile).status = "error" ∧
    (traiter_tous_fichiers [emptyResultFile, unreadableFile]).success +
      (traiter_tous_fichiers [emptyResultFile, unreadableFile]).errors = 2 := by
  refine ⟨claim9_empty_result_batch.1 emptyResultFile [missingElement] rfl (by decide),
          claim9_empty_result_batch.2.1 unreadableFile rfl, ?_⟩
  have h := (claim9_empty_result_batch.2.2.1 [emptyResultFile, unreadableFile]).2
  simpa using h

/-! ## The compact canonical serialization differs from the written document -/

theorem itemChars_cons (p : String × JVal) :
    ∃ t, itemChars p = '"' :: t := by
  refine ⟨(p.1.data.foldr (fun c acc => jsonEscapeChar c ++ acc) []) ++ ['"'] ++ ':' :: ' ' :: renderJVal p.2, ?_⟩
  simp [itemChars, renderJVal]

theorem joinChars_cons (sep : List Char) (x : List Char) (xs : List (List Char)) :
    ∃ t, joinChars sep (x :: xs) = x ++ t := by
  cases xs with
  | nil => exact ⟨[], by simp [joinChars]⟩
  | cons y ys => exact ⟨sep ++ joinChars sep (y :: ys), by simp [joinChars]⟩

/-- A non-empty record serializes compactly to `{"…` but with 2-space
indentation to `{\n…`: the byte strings differ at the second character. -/
theorem dumps_sorted_ne_indent (l m : Rec) (hl : l ≠ []) (hm : m ≠ []) :
    dumpsSortedChars l ≠ dumpsIndent2Chars m := by
  have hsl : sortPairs l ≠ [] := by
    intro h
    have hp := sortPairs_perm l
    rw [h] at hp
    exact hl hp.nil_eq.symm
  obtain ⟨p, ps, hps⟩ := List.exists_cons_of_ne_nil hsl
  obtain ⟨q, qs, hqs⟩ := List.exists_cons_of_ne_nil hm
  obtain ⟨t1, ht1⟩ := itemChars_cons p
  obtain ⟨t2, ht2⟩ := joinChars_cons [',', ' '] (itemChars p) (ps.map itemChars)
  have h1 : dumpsSortedChars l = '{' :: '"' :: (t1 ++ t2 ++ ['}']) := by
    unfold dumpsSortedChars
    rw [hps, List.map_cons, ht2, ht1]
    simp
  have h2 : ∃ u, dumpsIndent2Chars m = '{' :: '\n' :: u := by
    unfold dumpsIndent2Chars
    rw [hqs]
    exact ⟨_, rfl⟩
  obtain ⟨u, h2⟩ := h2
  rw [h1, h2]
  intro h
  have := (List.cons.injEq _ _ _ _).mp h
  have := (List.cons.injEq _ _ _ _).mp this.2
  exact absurd this.1 (by decide)

/-- C10, universal part together with a concrete instance: every accepted
record stores in `hash_json` the SHA-256 of the sorted-key compact
serialization of the record without `hash_json`; that byte string differs
from the indented document written to disk; and for the sample record the
SHA-256 of the written bytes indeed differs from the stored `hash_json`. -/
theorem claim10_hash_vs_file_bytes :
    (∀ (f : IFCFile) (path : String) (record : Rec),
      (path, record) ∈ (traiter_fichier_maquette f).objets_json →
      lookupKey record "hash_json" =
        some (.s (sha256hex (utf8 (dumpsSortedChars (eraseKeyAll "hash_json" record))))) ∧
      dumpsSortedChars (eraseKeyAll "hash_json" record) ≠ dumpsIndent2Chars record) ∧
    sha256hex (utf8 (dumpsIndent2Chars sampleOut.2)) ≠
      jstr ((lookupKey sampleOut.2 "hash_json").getD (.s "")) := by
  constructor
  · intro f path record hmem
    obtain ⟨e, hok, hrec⟩ := traiter_record_shape f path record hmem
    obtain ⟨hk1, hk2⟩ := extraction_loop_no_hash_keys e
    obtain ⟨he, hr, _, hl2⟩ := attachHashes_facts f.bytes (extraction_loop e).1 hk1 hk2
    subst hrec
    constructor
    · exact hl2
    · apply dumps_sorted_ne_indent
      · rw [he]
        simp
      · rw [hr]
        simp
  · decide

/-- Witness for C10 at the sample file. -/
theorem claim10_hash_vs_file_bytes_w :
    lookupKey sampleOut.2 "hash_json" =
      some (.s (sha256hex (utf8 (dumpsSortedChars (eraseKeyAll "hash_json" sampleOut.2))))) ∧
    dumpsSortedChars (eraseKeyAll "hash_json" sampleOut.2) ≠ dumpsIndent2Chars sampleOut.2 :=
  claim10_hash_vs_file_bytes.1 sampleFile sampleOut.1 sampleOut.2 sampleOut_mem

/-- C4, counterexample: for an element with one missing field the extractor
does not return the enumerated RejectionReport as a value — it raises (here:
`Except.error`) carrying only the error count, while the report with the one
missing-field message exists only in the loop state. -/
theorem claim4_report_cex :
    extraire_toutes_proprietes_element missingElement = .error "Extraction échouée: 1 erreur(s)" ∧
    (extraction_loop missingElement).2 = ["❌ PROPRIÉTÉ MANQUANTE: \x27Materiau\x27 (Type de matériau)"] := by
  constructor
  · rfl
  · decide

/-- C4, amended: the loop processes every schema field, appending exactly one
message per missing or malformed field in schema order; a non-empty failure
list then makes the extractor raise a fault whose message carries the error
count (the full report is not returned), the entity contributing no record
and no output file; an empty list yields the record. -/
theorem claim4_report_amended :
    (∀ e : Element, (extraction_loop e).2 = (parametres_obligatoires.filter (failp e)).map (failMsg e)) ∧
    (∀ e : Element, (extraction_loop e).2 ≠ [] →
      extraire_toutes_proprietes_element e =
        .error ("Extraction échouée: " ++ natDec (extraction_loop e).2.length ++ " erreur(s)")) ∧
    (∀ e : Element, (extraction_loop e).2 = [] →
      extraire_toutes_proprietes_element e = .ok (extraction_loop e).1) ∧
    (∀ (contenu : List Nat) (elements : List Element),
      (processElems contenu elements).1 = (elements.filter extractOk).length ∧
      (processElems contenu elements).2.2 = (elements.filter extractOk).map (outputOf contenu)) := by
  refine ⟨extraction_loop_errs, ?_, ?_, ?_⟩
  · intro e hne
    rw [extraire_eq_ite]
    have hok : extractOk e = false := by
      unfold extractOk
      simpa using hne
    rw [hok]
    rfl
  · intro e hnil
    rw [extraire_eq_ite]
    have hok : extractOk e = true := by
      unfold extractOk
      simp [hnil]
    rw [hok]
    rfl
  · intro contenu elements
    exact ⟨processElems_count contenu elements, processElems_outs contenu elements⟩

/-- Witness for C4 at an element with two distinct problems. -/
theorem claim4_report_amended_w :
    extraire_toutes_proprietes_element doubleBadElement =
      .error ("Extraction échouée: " ++ natDec (extraction_loop doubleBadElement).2.length ++ " erreur(s)") ∧
    (extraction_loop doubleBadElement).2.length = 2 := by
  exact ⟨claim4_report_amended.2.1 doubleBadElement (by decide), by decide⟩

/-- C7, counterexample: a non-digit input fails, but its message names the
field and the offending literal — it does not state expected versus actual
length (it does not even contain the digits 16). -/
theorem claim7_fixed_digit_cex :
    valider_format (some "abcdefghijklmnop") "16_chiffres" "ID" =
      (false, .s "\x27ID\x27 doit contenir uniquement des chiffres, reçu: \x27abcdefghijklmnop\x27") ∧
    strContains "\x27ID\x27 doit contenir uniquement des chiffres, reçu: \x27abcdefghijklmnop\x27" "16" = false := by
  constructor
  · decide
  · decide

/-- C7, amended: every 16-digit string is accepted unchanged; every other
input fails — with the expected-versus-actual-length message when the input
is all digits of the wrong length, and with the only-digits message naming
the offending literal when it contains a non-digit. -/
theorem claim7_fixed_digit_amended :
    (∀ (nom s : String), pyIsDigit s = true → s.length = 16 →
      valider_format (some s) "16_chiffres" nom = (true, .s s)) ∧
    (∀ (nom s : String), ¬(pyIsDigit s = true ∧ s.length = 16) →
      (valider_format (some s) "16_chiffres" nom).1 = false) ∧
    (∀ (nom s : String), pyIsDigit s = true → s.length ≠ 16 →
      valider_format (some s) "16_chiffres" nom =
        (false, .s ("\x27" ++ nom ++ "\x27 doit contenir exactement 16 chiffres, reçu: " ++
          natDec s.length ++ " chiffres"))) ∧
    (∀ (nom s : String), pyIsDigit s = false →
      valider_format (some s) "16_chiffres" nom =
        (false, .s ("\x27" ++ nom ++ "\x27 doit contenir uniquement des chiffres, reçu: \x27" ++ s ++ "\x27"))) := by
  refine ⟨?_, ?_, ?_, ?_⟩
  · intro nom s hd hl
    simp [valider_format, hd, hl]
  · intro nom s hne
    rcases hd : pyIsDigit s with _ | _
    · simp [valider_format, hd]
    · have hl : s.length ≠ 16 := fun hl => hne ⟨hd, hl⟩
      simp [valider_format, hd, hl]
  · intro nom s hd hl
    simp [valider_format, hd, hl]
  · intro nom s hd
    simp [valider_format, hd]

/-- Witness for C7: a valid identifier is returned unchanged, and an all-digit
string of the wrong length gets the expected-versus-actual message. -/
theorem claim7_fixed_digit_amended_w :
    valider_format (some "1111111111111111") "16_chiffres" "ID" = (true, .s "1111111111111111") ∧
    valider_format (some "123") "16_chiffres" "ID" =
      (false, .s "\x27ID\x27 doit contenir exactement 16 chiffres, reçu: 3 chiffres") := by
  constructor
  · exact claim7_fixed_digit_amended.1 "ID" "1111111111111111" (by decide) (by decide)
  · exact claim7_fixed_digit_amended.2.2.1 "ID" "123" (by decide) (by decide)

/-- C8, counterexample: a whitespace-only input keeps its whitespace, so the
validator succeeds with an empty canonical value; and the alphabetic letter
é is stripped (the kept class is ASCII letters plus whitespace). -/
theorem claim8_letters_only_cex :
    valider_format (some " ") "lettres" "NOM" = (true, .s "") ∧
    valider_format (some "été") "lettres" "NOM" = (true, .s "t") := by
  constructor
  · decide
  · decide

/-- C8, amended: the validator keeps only ASCII letters and whitespace; it
fails exactly when nothing at all (not even whitespace) remains, and
otherwise returns the whitespace-trimmed residue, every character of which
is an ASCII letter or whitespace — but that residue may be empty. -/
theorem claim8_letters_only_amended :
    (∀ (nom s : String), s.data.filter (fun c => isAsciiLetter c || isPySpace c) = [] →
      valider_format (some s) "lettres" nom =
        (false, .s ("\x27" ++ nom ++ "\x27 doit contenir des lettres, reçu: \x27" ++ s ++ "\x27"))) ∧
    (∀ (nom s : String), s.data.filter (fun c => isAsciiLetter c || isPySpace c) ≠ [] →
      valider_format (some s) "lettres" nom =
        (true, .s (pyStrip ⟨s.data.filter (fun c => isAsciiLetter c || isPySpace c)⟩))) ∧
    (∀ (nom s canon : String), valider_format (some s) "lettres" nom = (true, .s canon) →
      ∀ ch ∈ canon.data, (isAsciiLetter ch || isPySpace ch) = true) := by
  have hbranch : ∀ (nom s : String),
      valider_format (some s) "lettres" nom =
        (if (⟨s.data.filter (fun c => isAsciiLetter c || isPySpace c)⟩ : String) = "" then
          (false, .s ("\x27" ++ nom ++ "\x27 doit contenir des lettres, reçu: \x27" ++ s ++ "\x27"))
         else (true, .s (pyStrip ⟨s.data.filter (fun c => isAsciiLetter c || isPySpace c)⟩))) := by
    intro nom s
    rfl
  have hempty : ∀ l : List Char, ((⟨l⟩ : String) = "") ↔ l = [] := by
    intro l
    constructor
    · intro h
      exact congrArg String.data h
    · intro h
      rw [h]
  refine ⟨?_, ?_, ?_⟩
  · intro nom s hf
    rw [hbranch, if_pos ((hempty _).mpr hf)]
  · intro nom s hf
    rw [hbranch, if_neg (fun hc => hf ((hempty _).mp hc))]
  · intro nom s canon hval ch hch
    rcases hf : s.data.filter (fun c => isAsciiLetter c || isPySpace c) with _ | _
    · rw [hbranch, if_pos ((hempty _).mpr hf)] at hval
      exact absurd (congrArg Prod.fst hval) (by simp)
    · rw [hbranch, if_neg (fun hc => by rw [(hempty _).mp hc] at hf; cases hf)] at hval
      have hcanon : canon = pyStrip ⟨s.data.filter (fun c => isAsciiLetter c || isPySpace c)⟩ := by
        have := congrArg Prod.snd hval
        simpa using this.symm
      subst hcanon
      have hsub : ch ∈ s.data.filter (fun c => isAsciiLetter c || isPySpace c) := by
        have h1 := hch
        have h2 := List.mem_reverse.mp h1
        have h3 := (List.dropWhile_sublist isPySpace).subset h2
        have h4 := List.mem_reverse.mp h3
        exact (List.dropWhile_sublist isPySpace).subset h4
      exact (List.mem_filter.mp hsub).2

/-- Witness for C8: digits are stripped and the letter residue is returned. -/
theorem claim8_letters_only_amended_w :
    valider_format (some "a1b2") "lettres" "NOM" =
      (true, .s (pyStrip ⟨("a1b2" : String).data.filter (fun c => isAsciiLetter c || isPySpace c)⟩)) ∧
    pyStrip ⟨("a1b2" : String).data.filter (fun c => isAsciiLetter c || isPySpace c)⟩ = "ab" := by
  constructor
  · exact claim8_letters_only_amended.2.1 "NOM" "a1b2" (by decide)
  · decide

/-! ## C5: the usage-status field -/

theorem vfp_statut (s : String) (h0 : s ≠ "") (h1 : s ≠ "Non trouvé") :
    valider_format_parametre "Statut_usage" (some s) =
      if pyLower (pyStrip s) ∈ r9_statuts_valides then (true, "")
      else (false, "Statut_usage doit être l\x27un de: " ++ pyReprStrList r9_statuts_valides) := by
  simp [valider_format_parametre, h0, h1]

/-- C5, counterexample: an otherwise-valid element whose usage status is
`demoli` is accepted by the IFC_extractor_5.4 pipeline (`Statut usage` is
validated as free text): one record is created, zero rejected, the stored
status is `demoli`, and the file reports success — not zero accepted records
with one rejection. -/
theorem claim5_usage_status_cex :
    (processElems demoliFile.bytes [demoliElement]).1 = 1 ∧
    (processElems demoliFile.bytes [demoliElement]).2.1 = 0 ∧
    ((processElems demoliFile.bytes [demoliElement]).2.2.map (fun pr => lookupKey pr.2 "Statut usage")) =
      [some (.s "demoli")] ∧
    (traiter_fichier_maquette demoliFile).status = "success" := by
  refine ⟨by decide, by decide, by decide, by decide⟩

/-- C5, amended: in ifc_r9_extractor the usage status is accepted exactly
when its trimmed form is, case-insensitively, one of neuf / en usage /
réemployé, and `demoli` is rejected with the message naming that set; but
IFC_extractor_5.4 validates `Statut usage` as non-empty free text, so
`demoli` passes there. -/
theorem claim5_usage_status_amended :
    (∀ v : Option String, (valider_format_parametre "Statut_usage" v).1 = true ↔
       ∃ s, v = some s ∧ pyLower (pyStrip s) ∈ r9_statuts_valides) ∧
    valider_format_parametre "Statut_usage" (some "demoli") =
      (false, "Statut_usage doit être l\x27un de: [\x27neuf\x27, \x27en usage\x27, \x27réemployé\x27]") ∧
    valider_format (some "demoli") "texte" "Statut usage" = (true, .s "demoli") := by
  refine ⟨?_, by decide, by decide⟩
  intro v
  cases v with
  | none =>
    constructor
    · intro h
      simp [valider_format_parametre] at h
    · rintro ⟨s, hs, _⟩
      cases hs
  | some s =>
    constructor
    · intro h
      refine ⟨s, rfl, ?_⟩
      by_cases h0 : s = ""
      · subst h0
        simp [valider_format_parametre] at h
      · by_cases h1 : s = "Non trouvé"
        · subst h1
          simp [valider_format_parametre] at h
        · rw [vfp_statut s h0 h1] at h
          by_cases hc : pyLower (pyStrip s) ∈ r9_statuts_valides
          · exact hc
          · rw [if_neg hc] at h
            simp at h
    · rintro ⟨s', hs, hmem⟩
      injection hs with hs
      subst hs
      have h0 : s ≠ "" := by
        intro h
        subst h
        exact absurd hmem (by decide)
      have h1 : s ≠ "Non trouvé" := by
        intro h
        subst h
        exact absurd hmem (by decide)
      rw [vfp_statut s h0 h1, if_pos hmem]

theorem digit_not_space {c : Char} (h : isAsciiDigit c = true) : isPySpace c = false := by
  unfold isAsciiDigit at h
  unfold isPySpace
  simp only [Bool.and_eq_true, decide_eq_true_eq] at h
  simp only [Bool.or_eq_false_iff, decide_eq_false_iff_not]
  omega

theorem digit_ne {c d : Char} (h : isAsciiDigit c = true) (hd : d.toNat < 48 ∨ 57 < d.toNat) :
    c ≠ d := by
  unfold isAsciiDigit at h
  simp only [Bool.and_eq_true, decide_eq_true_eq] at h
  intro he
  subst he
  omega

theorem dropWhile_eq_self_of_none {p : Char → Bool} {l : List Char}
    (h : ∀ c ∈ l, p c = false) : l.dropWhile p = l := by
  cases l with
  | nil => rfl
  | cons c cs =>
    rw [List.dropWhile_cons, if_neg (by rw [h c (List.mem_cons_self c cs)]; simp)]

theorem pyCleanWs_of_no_space {l : List Char} (h : ∀ c ∈ l, isPySpace c = false) :
    pyCleanWs l = l := by
  unfold pyCleanWs
  rw [dropWhile_eq_self_of_none h]
  rw [dropWhile_eq_self_of_none (fun c hc => h c (List.mem_reverse.mp hc))]
  exact List.reverse_reverse l

theorem pyInt_digits (s : String) (hne : s.data ≠ [])
    (h : ∀ c ∈ s.data, isAsciiDigit c = true) :
    pyInt s = some ((digitsVal s.data : Nat) : Int) := by
  unfold pyInt
  rw [pyCleanWs_of_no_space (fun c hc => digit_not_space (h c hc))]
  rcases hd : s.data with _ | ⟨c, cs⟩
  · exact absurd hd hne
  · have hc := h c (hd ▸ List.mem_cons_self c cs)
    dsimp only
    rw [if_neg (digit_ne hc (Or.inl (by decide))), if_neg (digit_ne hc (Or.inl (by decide))),
      if_pos (by rw [List.all_eq_true]; intro x hx; exact h x (hd ▸ hx))]

theorem pySplitAux_last : ∀ (t acc : List Char), (∀ c ∈ t, isPySpace c = false) →
    acc.reverse ++ t ≠ [] → pySplitAux t acc = [acc.reverse ++ t] := by
  intro t
  induction t with
  | nil =>
    intro acc _ hne
    rw [pySplitAux]
    rw [if_neg (by simp at hne ⊢; intro h; exact hne (by simp [h]))]
    simp
  | cons c cs ih =>
    intro acc h hne
    rw [pySplitAux, if_neg (by rw [h c (List.mem_cons_self c cs)]; simp)]
    rw [ih (c :: acc) (fun x hx => h x (List.mem_cons_of_mem c hx)) (by simp)]
    simp

theorem pySplitAux_token (rest : List Char) : ∀ (t acc : List Char),
    (∀ c ∈ t, isPySpace c = false) → acc.reverse ++ t ≠ [] →
    pySplitAux (t ++ ' ' :: rest) acc = (acc.reverse ++ t) :: pySplitAux rest [] := by
  intro t
  induction t with
  | nil =>
    intro acc _ hne
    rw [List.nil_append, pySplitAux, if_pos (by decide)]
    rw [if_neg (by simp at hne ⊢; intro h; exact hne (by simp [h]))]
    simp
  | cons c cs ih =>
    intro acc h hne
    rw [List.cons_append, pySplitAux, if_neg (by rw [h c (List.mem_cons_self c cs)]; simp)]
    rw [ih (c :: acc) (fun x hx => h x (List.mem_cons_of_mem c hx)) (by simp)]
    simp

theorem strEta (s : String) : (⟨s.data⟩ : String) = s := by
  cases s
  rfl

theorem pySplit_three (dj dm dy : String)
    (hj : ∀ c ∈ dj.data, isAsciiDigit c = true) (hm : ∀ c ∈ dm.data, isAsciiDigit c = true)
    (hy : ∀ c ∈ dy.data, isAsciiDigit c = true)
    (hjne : dj.data ≠ []) (hmne : dm.data ≠ []) (hyne : dy.data ≠ []) :
    pySplit (dj ++ " " ++ dm ++ " " ++ dy) = [dj, dm, dy] := by
  unfold pySplit
  have hdata : (dj ++ " " ++ dm ++ " " ++ dy).data = dj.data ++ ' ' :: (dm.data ++ ' ' :: dy.data) := by
    simp [String.data_append]
  rw [hdata]
  rw [pySplitAux_token _ dj.data [] (fun c hc => digit_not_space (hj c hc)) (by simpa)]
  rw [pySplitAux_token _ dm.data [] (fun c hc => digit_not_space (hm c hc)) (by simpa)]
  rw [pySplitAux_last dy.data [] (fun c hc => digit_not_space (hy c hc)) (by simpa)]
  simp [strEta]

theorem map_replace_digits {l : List Char} (h : ∀ c ∈ l, isAsciiDigit c = true) {a : Char}
    (ha : a.toNat < 48 ∨ 57 < a.toNat) (b : Char) :
    l.map (fun c => if c = a then b else c) = l := by
  induction l with
  | nil => rfl
  | cons c cs ih =>
    rw [List.map_cons, if_neg (digit_ne (h c (List.mem_cons_self c cs)) ha),
      ih (fun x hx => h x (List.mem_cons_of_mem c hx))]

theorem strExt {s t : String} (h : s.data = t.data) : s = t := by
  cases s
  cases t
  exact congrArg String.mk h

theorem date_clean_of_sep (dj dm dy : String) (sc : Char)
    (hsep : sc = ' ' ∨ sc = '-' ∨ sc = '/')
    (hj : ∀ c ∈ dj.data, isAsciiDigit c = true) (hm : ∀ c ∈ dm.data, isAsciiDigit c = true)
    (hy : ∀ c ∈ dy.data, isAsciiDigit c = true) :
    pyReplaceChar (pyReplaceChar (dj ++ ⟨[sc]⟩ ++ dm ++ ⟨[sc]⟩ ++ dy) '-' ' ') '/' ' ' =
      dj ++ " " ++ dm ++ " " ++ dy := by
  have hdata : (dj ++ ⟨[sc]⟩ ++ dm ++ ⟨[sc]⟩ ++ dy).data =
      dj.data ++ sc :: (dm.data ++ sc :: dy.data) := by
    simp [String.data_append]
  have hrhs : (dj ++ " " ++ dm ++ " " ++ dy).data =
      dj.data ++ ' ' :: (dm.data ++ ' ' :: dy.data) := by
    simp [String.data_append]
  apply strExt
  show ((dj ++ ⟨[sc]⟩ ++ dm ++ ⟨[sc]⟩ ++ dy).data.map (fun c => if c = '-' then ' ' else c)).map
      (fun c => if c = '/' then ' ' else c) = _
  rw [hdata, hrhs]
  simp only [List.map_append, List.map_cons]
  rw [@map_replace_digits dj.data hj '-' (by decide) ' ', @map_replace_digits dm.data hm '-' (by decide) ' ',
    @map_replace_digits dy.data hy '-' (by decide) ' ']
  rw [@map_replace_digits dj.data hj '/' (by decide) ' ', @map_replace_digits dm.data hm '/' (by decide) ' ',
    @map_replace_digits dy.data hy '/' (by decide) ' ']
  rcases hsep with h | h | h <;> subst h <;> simp

theorem valider_format_date_compute (v nom : String) :
    valider_format (some v) "date" nom =
      (match pySplit (pyReplaceChar (pyReplaceChar v '-' ' ') '/' ' ') with
       | [jour, mois, annee] =>
         match pyInt annee, pyInt mois, pyInt jour with
         | some a, some m, some j =>
           if datetimeOk a m j then (true, .s (jour ++ " " ++ mois ++ " " ++ annee))
           else (false, .s ("\x27" ++ nom ++ "\x27 date invalide, reçu: \x27" ++ v ++ "\x27"))
         | _, _, _ => (false, .s ("\x27" ++ nom ++ "\x27 date invalide, reçu: \x27" ++ v ++ "\x27"))
       | _ => (false, .s ("\x27" ++ nom ++ "\x27 doit être au format JJ MM AAAA, reçu: \x27" ++ v ++ "\x27"))) := by
  rfl

theorem date_branch_ok (nom v dj dm dy : String)
    (hclean : pyReplaceChar (pyReplaceChar v '-' ' ') '/' ' ' = dj ++ " " ++ dm ++ " " ++ dy)
    (hj : ∀ c ∈ dj.data, isAsciiDigit c = true) (hm : ∀ c ∈ dm.data, isAsciiDigit c = true)
    (hy : ∀ c ∈ dy.data, isAsciiDigit c = true)
    (hjne : dj.data ≠ []) (hmne : dm.data ≠ []) (hyne : dy.data ≠ [])
    (hdate : datetimeOk (digitsVal dy.data) (digitsVal dm.data) (digitsVal dj.data) = true) :
    valider_format (some v) "date" nom = (true, .s (dj ++ " " ++ dm ++ " " ++ dy)) := by
  rw [valider_format_date_compute, hclean, pySplit_three dj dm dy hj hm hy hjne hmne hyne]
  dsimp only
  rw [pyInt_digits dy hyne hy, pyInt_digits dm hmne hm, pyInt_digits dj hjne hj]
  dsimp only
  rw [if_pos hdate]

theorem date_branch_wrong_count (nom v : String)
    (h : (pySplit (pyReplaceChar (pyReplaceChar v '-' ' ') '/' ' ')).length ≠ 3) :
    valider_format (some v) "date" nom =
      (false, .s ("\x27" ++ nom ++ "\x27 doit être au format JJ MM AAAA, reçu: \x27" ++ v ++ "\x27")) := by
  rw [valider_format_date_compute]
  rcases hsp : pySplit (pyReplaceChar (pyReplaceChar v '-' ' ') '/' ' ') with _ | ⟨a, _ | ⟨b, _ | ⟨c, _ | _⟩⟩⟩ <;>
    first
      | rfl
      | (exact absurd (by rw [hsp]; rfl) h)


/-- C6, amended: the valider_format date branch of IFC_extractor_5.4 accepts
space, hyphen or slash separators, requires exactly three components forming
a real calendar date, and returns the components space-joined (31 02 2020
rejected, 13 01 2011 accepted as 13 01 2011); the separate
valider_format_date of ifc_r9_extractor instead accepts only the
10-character hyphen-separated DD-MM-YYYY form and returns no canonical
value. -/
theorem claim6_date_validation_amended :
    (∀ (nom dj dm dy : String) (sc : Char), (sc = ' ' ∨ sc = '-' ∨ sc = '/') →
      dj.data ≠ [] → dm.data ≠ [] → dy.data ≠ [] →
      (∀ c ∈ dj.data, isAsciiDigit c = true) → (∀ c ∈ dm.data, isAsciiDigit c = true) →
      (∀ c ∈ dy.data, isAsciiDigit c = true) →
      datetimeOk (digitsVal dy.data) (digitsVal dm.data) (digitsVal dj.data) = true →
      valider_format (some (dj ++ ⟨[sc]⟩ ++ dm ++ ⟨[sc]⟩ ++ dy)) "date" nom =
        (true, .s (dj ++ " " ++ dm ++ " " ++ dy))) ∧
    (∀ (nom v : String), (pySplit (pyReplaceChar (pyReplaceChar v '-' ' ') '/' ' ')).length ≠ 3 →
      valider_format (some v) "date" nom =
        (false, .s ("\x27" ++ nom ++ "\x27 doit être au format JJ MM AAAA, reçu: \x27" ++ v ++ "\x27"))) ∧
    valider_format (some "31 02 2020") "date" "Date de fabrication" =
      (false, .s "\x27Date de fabrication\x27 date invalide, reçu: \x2731 02 2020\x27") ∧
    valider_format (some "13 01 2011") "date" "Date de fabrication" = (true, .s "13 01 2011") ∧
    valider_format_date "13-01-2011" = true ∧
    (∀ s : String, valider_format_date s = true → s.length = 10) := by
  refine ⟨?_, date_branch_wrong_count, by decide, by decide, by decide, ?_⟩
  · intro nom dj dm dy sc hsep hjne hmne hyne hj hm hy hd
    exact date_branch_ok nom _ dj dm dy (date_clean_of_sep dj dm dy sc hsep hj hm hy)
      hj hm hy hjne hmne hyne hd
  · intro s h
    unfold valider_format_date at h
    split at h
    · cases h
    · split at h
      next d1 d2 m1 m2 y1 y2 y3 y4 heq =>
        show s.data.length = 10
        rw [heq]
        rfl
      next => cases h

/-- Witness for C6 at the leap day 29 02 2020, space- and hyphen-separated. -/
theorem claim6_date_validation_amended_w :
    valider_format (some "29 02 2020") "date" "Date de fabrication" = (true, .s "29 02 2020") ∧
    valider_format (some "29-02-2020") "date" "Date de fabrication" = (true, .s "29 02 2020") := by
  constructor
  · exact claim6_date_validation_amended.1 "Date de fabrication" "29" "02" "2020" ' ' (Or.inl rfl)
      (by decide) (by decide) (by decide) (by decide) (by decide) (by decide) (by decide)
  · exact claim6_date_validation_amended.1 "Date de fabrication" "29" "02" "2020" '-' (Or.inr (Or.inl rfl))
      (by decide) (by decide) (by decide) (by decide) (by decide) (by decide) (by decide)

/-! ## C6: date validation -/

/-- C6, counterexample: the date validator of ifc_r9_extractor accepts only
the hyphen-separated DD-MM-YYYY form — the space- and slash-separated
variants the claim says are accepted are rejected there. -/
theorem claim6_date_validation_cex :
    valider_format_date "13 01 2011" = false ∧
    valider_format_date "13/01/2011" = false := by
  constructor
  · decide
  · decide

/-- Witness for C5: a padded upper-case variant of réemployé is accepted by
the case-insensitive membership test. -/
theorem claim5_usage_status_amended_w :
    (valider_format_parametre "Statut_usage" (some " RÉEMPLOYÉ ")).1 = true := by
  exact (claim5_usage_status_amended.1 (some " RÉEMPLOYÉ ")).mpr ⟨" RÉEMPLOYÉ ", rfl, by decide⟩

/-! ## Duplicate identifiers: the element loops of the two extractors -/

theorem r9_validation_step_shape (eid : Nat) (pr : List (String × String))
    (errs : List String) (param : String) :
    ∃ add, r9_validation_step eid pr errs param = errs ++ add := by
  unfold r9_validation_step
  cases r9Lookup pr param with
  | none => exact ⟨_, rfl⟩
  | some v =>
    dsimp only
    rcases valider_format_parametre param (some v) with ⟨valide, message⟩
    cases valide with
    | false => exact ⟨_, rfl⟩
    | true => exact ⟨[], (List.append_nil _).symm⟩

theorem r9_validation_fold_shape (eid : Nat) (pr : List (String × String)) :
    ∀ (params : List String) (errs : List String),
      ∃ add, params.foldl (r9_validation_step eid pr) errs = errs ++ add := by
  intro params
  induction params with
  | nil => exact fun errs => ⟨[], (List.append_nil _).symm⟩
  | cons q ps ih =>
    intro errs
    obtain ⟨a1, h1⟩ := r9_validation_step_shape eid pr errs q
    obtain ⟨a2, h2⟩ := ih (errs ++ a1)
    exact ⟨a1 ++ a2, by rw [List.foldl_cons, h1, h2, List.append_assoc]⟩

theorem extraire_props_shape (element : R9Element) (p : List (String × String))
    (h : extraire_proprietes_objet element = .ok p) :
    ∃ nomv lng, p =
      [("NOM", nomv), ("ID", r9_object_id element.globalId), ("ID_maquette", "000000000000"),
       ("Longueur_m", lng),
       ("Caracteristique_Materiau", computeCaracteristique element.matProps),
       ("Materiau", ((mapping_materiaux.find? (fun q => q.1 == element.ifcType)).map (·.2)).getD "mixte"),
       ("Statut_usage", "neuf"), ("Date_fabrication", "01-01-2020"),
       ("Date_mise_en_service", "01-06-2020"), ("Date_reemploi", "Non spécifié"),
       ("Empreinte_Carbone", "100.0")] := by
  unfold extraire_proprietes_objet at h
  cases hcl : computeLongueur element.psets with
  | error e => rw [hcl] at h; cases h
  | ok lng =>
    rw [hcl] at h
    dsimp only at h
    exact ⟨_, lng, by injection h with h; exact h.symm⟩

theorem r9DictSet_props (nomv idv lng carac matv idm : String) :
    r9DictSet [("NOM", nomv), ("ID", idv), ("ID_maquette", "000000000000"),
       ("Longueur_m", lng), ("Caracteristique_Materiau", carac), ("Materiau", matv),
       ("Statut_usage", "neuf"), ("Date_fabrication", "01-01-2020"),
       ("Date_mise_en_service", "01-06-2020"), ("Date_reemploi", "Non spécifié"),
       ("Empreinte_Carbone", "100.0")] "ID_maquette" idm =
    [("NOM", nomv), ("ID", idv), ("ID_maquette", idm),
       ("Longueur_m", lng), ("Caracteristique_Materiau", carac), ("Materiau", matv),
       ("Statut_usage", "neuf"), ("Date_fabrication", "01-01-2020"),
       ("Date_mise_en_service", "01-06-2020"), ("Date_reemploi", "Non spécifié"),
       ("Empreinte_Carbone", "100.0")] := rfl

theorem r9_step_date_reemploi (eid : Nat) (pr : List (String × String)) (errs : List String)
    (h : r9Lookup pr "Date_reemploi" = some "Non spécifié") :
    r9_validation_step eid pr errs "Date_reemploi" =
      errs ++ ["Objet " ++ natDec eid ++ ": " ++
               "Date_reemploi doit être au format DD-MM-YYYY (ex: 13-01-2001)"] := by
  unfold r9_validation_step
  rw [h]
  rfl

theorem r9_fold_date_err (eid : Nat) (pr : List (String × String))
    (h : r9Lookup pr "Date_reemploi" = some "Non spécifié") :
    ∃ pre post, r9_parametres_obligatoires.foldl (r9_validation_step eid pr) [] =
      pre ++ ("Objet " ++ natDec eid ++ ": " ++
              "Date_reemploi doit être au format DD-MM-YYYY (ex: 13-01-2001)") :: post := by
  have hsplit : r9_parametres_obligatoires =
      ["NOM", "ID", "ID_maquette", "Longueur_m", "Caracteristique_Materiau",
       "Materiau", "Statut_usage", "Date_fabrication", "Date_mise_en_service"] ++
      "Date_reemploi" :: ["Empreinte_Carbone"] := rfl
  rw [hsplit, List.foldl_append]
  obtain ⟨a1, h1⟩ := r9_validation_fold_shape eid pr
      ["NOM", "ID", "ID_maquette", "Longueur_m", "Caracteristique_Materiau",
       "Materiau", "Statut_usage", "Date_fabrication", "Date_mise_en_service"] []
  rw [h1, List.foldl_cons, r9_step_date_reemploi eid pr _ h]
  obtain ⟨a2, h2⟩ := r9_validation_fold_shape eid pr ["Empreinte_Carbone"] _
  rw [h2]
  exact ⟨a1, a2, by simp⟩

theorem r9_process_props_facts (idm : String) (valides : List (List (String × R9Val)))
    (erreurs ids : List String) (element : R9Element) (nomv idv lng carac matv : String)
    (h : extraire_proprietes_objet element =
      .ok [("NOM", nomv), ("ID", idv), ("ID_maquette", "000000000000"),
           ("Longueur_m", lng), ("Caracteristique_Materiau", carac), ("Materiau", matv),
           ("Statut_usage", "neuf"), ("Date_fabrication", "01-01-2020"),
           ("Date_mise_en_service", "01-06-2020"), ("Date_reemploi", "Non spécifié"),
           ("Empreinte_Carbone", "100.0")]) :
    (r9_process_element idm (valides, erreurs, ids) element).1 = valides ∧
    (r9_process_element idm (valides, erreurs, ids) element).2.2 = ids ++ [idv] ∧
    (∃ e, e ∈ (r9_process_element idm (valides, erreurs, ids) element).2.1) ∧
    (ids.contains idv = true →
      ("ID dupliqué détecté: " ++ idv)
        ∈ (r9_process_element idm (valides, erreurs, ids) element).2.1) := by
  unfold r9_process_element
  rw [h]
  dsimp only
  rw [r9DictSet_props]
  obtain ⟨pre, post, hfold⟩ := r9_fold_date_err element.eid
      [("NOM", nomv), ("ID", idv), ("ID_maquette", idm),
       ("Longueur_m", lng), ("Caracteristique_Materiau", carac), ("Materiau", matv),
       ("Statut_usage", "neuf"), ("Date_fabrication", "01-01-2020"),
       ("Date_mise_en_service", "01-06-2020"), ("Date_reemploi", "Non spécifié"),
       ("Empreinte_Carbone", "100.0")] rfl
  rw [hfold]
  have hid : (r9Lookup
      [("NOM", nomv), ("ID", idv), ("ID_maquette", idm),
       ("Longueur_m", lng), ("Caracteristique_Materiau", carac), ("Materiau", matv),
       ("Statut_usage", "neuf"), ("Date_fabrication", "01-01-2020"),
       ("Date_mise_en_service", "01-06-2020"), ("Date_reemploi", "Non spécifié"),
       ("Empreinte_Carbone", "100.0")] "ID").getD "" = idv := rfl
  rw [hid]
  by_cases hc : ids.contains idv = true
  · rw [if_pos hc, if_neg (by simp : ¬((pre ++ ("Objet " ++ natDec element.eid ++ ": " ++
        "Date_reemploi doit être au format DD-MM-YYYY (ex: 13-01-2001)") :: post) ++
        ["ID dupliqué détecté: " ++ idv]).isEmpty = true)]
    refine ⟨rfl, rfl, ⟨"Objet " ++ natDec element.eid ++ ": " ++
        "Date_reemploi doit être au format DD-MM-YYYY (ex: 13-01-2001)", by simp⟩,
      fun _ => by simp⟩
  · rw [if_neg hc, if_neg (by simp : ¬(pre ++ ("Objet " ++ natDec element.eid ++ ": " ++
        "Date_reemploi doit être au format DD-MM-YYYY (ex: 13-01-2001)") :: post).isEmpty = true)]
    refine ⟨rfl, rfl, ⟨"Objet " ++ natDec element.eid ++ ": " ++
        "Date_reemploi doit être au format DD-MM-YYYY (ex: 13-01-2001)", by simp⟩,
      fun hcon => absurd hcon hc⟩

theorem r9_process_ok_facts (idm : String) (valides : List (List (String × R9Val)))
    (erreurs ids : List String) (element : R9Element) (p : List (String × String))
    (h : extraire_proprietes_objet element = .ok p) :
    (r9_process_element idm (valides, erreurs, ids) element).1 = valides ∧
    (r9_process_element idm (valides, erreurs, ids) element).2.2 =
      ids ++ [r9_object_id element.globalId] ∧
    (∃ e, e ∈ (r9_process_element idm (valides, erreurs, ids) element).2.1) ∧
    (ids.contains (r9_object_id element.globalId) = true →
      ("ID dupliqué détecté: " ++ r9_object_id element.globalId)
        ∈ (r9_process_element idm (valides, erreurs, ids) element).2.1) := by
  obtain ⟨nomv, lng, hp⟩ := extraire_props_shape element p h
  subst hp
  exact r9_process_props_facts idm valides erreurs ids element nomv
    (r9_object_id element.globalId) lng (computeCaracteristique element.matProps)
    (((mapping_materiaux.find? (fun q => q.1 == element.ifcType)).map (·.2)).getD "mixte") h


theorem r9_two_dup_loop (idm : String) (e1 e2 : R9Element)
    (p1 p2 : List (String × String))
    (h1 : extraire_proprietes_objet e1 = .ok p1)
    (h2 : extraire_proprietes_objet e2 = .ok p2)
    (hgid : e1.globalId = e2.globalId) :
    ("ID dupliqué détecté: " ++ r9_object_id e2.globalId) ∈ (r9_loop idm [e1, e2]).2.1 ∧
    (r9_loop idm [e1, e2]).1 = [] ∧
    ∃ msg, extraire_objets_avec_validation idm [e1, e2] = .error msg := by
  obtain ⟨hv1, hi1, _, _⟩ := r9_process_ok_facts idm [] [] [] e1 p1 h1
  have hcont : (r9_process_element idm ([], [], []) e1).2.2.contains
      (r9_object_id e2.globalId) = true := by
    rw [hi1, hgid]
    simp
  obtain ⟨hv2, hi2, hex2, hdup2⟩ := r9_process_ok_facts idm
    (r9_process_element idm ([], [], []) e1).1
    (r9_process_element idm ([], [], []) e1).2.1
    (r9_process_element idm ([], [], []) e1).2.2 e2 p2 h2
  have hloop : r9_loop idm [e1, e2] =
      r9_process_element idm ((r9_process_element idm ([], [], []) e1).1,
        (r9_process_element idm ([], [], []) e1).2.1,
        (r9_process_element idm ([], [], []) e1).2.2) e2 := rfl
  refine ⟨?_, ?_, ?_⟩
  · rw [hloop]
    exact hdup2 hcont
  · rw [hloop]
    exact hv2.trans hv1
  · obtain ⟨e, he⟩ := hex2
    have hmem : e ∈ (r9_loop idm [e1, e2]).2.1 := by rw [hloop]; exact he
    have hLne : (r9_loop idm [e1, e2]).2.1 ≠ [] := List.ne_nil_of_mem hmem
    have hcond : ¬((r9_loop idm [e1, e2]).2.1 ++
        (simuler_verification_ids_reseau (r9_loop idm [e1, e2]).2.2).map
          (fun idd => "ID déjà présent sur le réseau: " ++ idd)).isEmpty = true := by
      simp only [List.isEmpty_iff, List.append_eq_nil]
      exact fun hpair => hLne hpair.1
    exact ⟨_, by unfold extraire_objets_avec_validation; dsimp only; rw [if_neg hcond]⟩

/-- C3, counterexample: the spec states that within one run no two accepted
records may share an identifier, the later duplicate being rejected.  In
IFC_extractor_5.4 a file containing the same valid element twice is processed
with status success, both objects are created and accepted, both carry
identifier 1111111111111111, and both are written under the same output file
name. -/
theorem claim3_duplicate_cex :
    (traiter_fichier_maquette dupFile).status = "success" ∧
    (traiter_fichier_maquette dupFile).objets_crees = 2 ∧
    (traiter_fichier_maquette dupFile).objets_json.map (fun pr => lookupKey pr.2 "ID") =
      [some (JVal.s "1111111111111111"), some (JVal.s "1111111111111111")] ∧
    (traiter_fichier_maquette dupFile).objets_json.map Prod.fst =
      ["1111111111111111_poutre_IPE.json", "1111111111111111_poutre_IPE.json"] :=
  ⟨by decide, by decide, by decide, by decide⟩

/-- C3 (amended): IFC_extractor_5.4 performs no duplicate-identifier check at
all — every element whose extraction succeeds is accepted, so the number of
created objects equals the number of elements regardless of shared
identifiers.  Only ifc_r9_extractor checks duplicates, and there a detected
duplicate does not merely reject the later record: for two elements sharing a
GlobalId whose property extraction succeeds, the duplicate message is
recorded, no object is accepted (every extracted object already fails the
hard-coded Date_reemploi validation), and any recorded error makes
extraire_objets_avec_validation raise for the whole run, so no records are
returned at all. -/
theorem claim3_duplicate_amended :
    (∀ (contenu : List Nat) (elements : List Element),
       (∀ e ∈ elements, extractOk e = true) →
       (processElems contenu elements).1 = elements.length) ∧
    (∀ (idm : String) (e1 e2 : R9Element) (p1 p2 : List (String × String)),
       extraire_proprietes_objet e1 = .ok p1 →
       extraire_proprietes_objet e2 = .ok p2 →
       e1.globalId = e2.globalId →
       ("ID dupliqué détecté: " ++ r9_object_id e2.globalId) ∈ (r9_loop idm [e1, e2]).2.1 ∧
       (r9_loop idm [e1, e2]).1 = [] ∧
       ∃ msg, extraire_objets_avec_validation idm [e1, e2] = .error msg) := by
  constructor
  · intro contenu elements hall
    rw [processElems_count, List.filter_eq_self.mpr hall]
  · intro idm e1 e2 p1 p2 h1 h2 hgid
    exact r9_two_dup_loop idm e1 e2 p1 p2 h1 h2 hgid

/-- Witness for C3: the amended theorem applied to the duplicated 5.4 file and
to two r9 elements sharing GlobalId 2O2Fr8t4X7Zf8NOew3FLKI. -/
theorem claim3_duplicate_amended_w :
    (∀ e ∈ [sampleElement, sampleElement], extractOk e = true) ∧
    (processElems sampleFile.bytes [sampleElement, sampleElement]).1 = 2 ∧
    extraire_proprietes_objet r9SampleElement = .ok r9SampleProps ∧
    extraire_proprietes_objet r9SampleElement2 = .ok r9SampleProps ∧
    r9SampleElement.globalId = r9SampleElement2.globalId ∧
    ("ID dupliqué détecté: " ++ r9_object_id r9SampleElement2.globalId)
      ∈ (r9_loop "000000000000" [r9SampleElement, r9SampleElement2]).2.1 ∧
    ∃ msg, extraire_objets_avec_validation "000000000000"
      [r9SampleElement, r9SampleElement2] = .error msg := by
  have hall : ∀ e ∈ [sampleElement, sampleElement], extractOk e = true := by decide
  have hx1 : extraire_proprietes_objet r9SampleElement = .ok r9SampleProps :=
    congrArg Except.ok (by decide)
  have hx2 : extraire_proprietes_objet r9SampleElement2 = .ok r9SampleProps :=
    congrArg Except.ok (by decide)
  obtain ⟨hmem, _, hexc⟩ := claim3_duplicate_amended.2 "000000000000"
      r9SampleElement r9SampleElement2 r9SampleProps r9SampleProps hx1 hx2 rfl
  exact ⟨hall,
    (claim3_duplicate_amended.1 sampleFile.bytes [sampleElement, sampleElement] hall).trans rfl,
    hx1, hx2, rfl, hmem, hexc⟩

end R9
